import Mathlib

/-!
# Track-o-Bot: the result submission pipeline

A shallow embedding of `src/ResultQueue.cpp` and `src/Tracker.cpp`.

* Qt values (`QJsonValue`, `QJsonObject`, `QJsonArray`, `QSettings`, `QTimer`) are
  modelled by small functional counterparts that keep the operations the two
  source files call.
* Member variables become fields of a state record and every member function
  becomes a function from state to state.
* Calls that leave the class (the web client's `UploadResult`, the network
  manager's `post`, emitted signals) are appended to a trace field of the state,
  oldest call first.
* `LOG` and `ERR` write to the log sink only and are left out.
-/

namespace TrackOBot

/-! ## JSON values -/

/-- A `QJsonValue`. Numbers are carried as integers; `undefined` is the value Qt
returns when a key is looked up that the object does not hold. -/
inductive Json where
  | undefined : Json
  | null : Json
  | bool (b : Bool) : Json
  | num (n : Int) : Json
  | str (s : String) : Json
  | arr (xs : List Json) : Json
  | obj (kvs : List (String × Json)) : Json

/-- A `QJsonObject` (also `QtJson::JsonObject`): the key/value pairs of an object.
Lookup and assignment go by key; the order in which Qt stores the keys is not
modelled. -/
abbrev JsonObject := List (String × Json)

/-- Source `QJsonValue::toObject()`: the object held, or an empty object. -/
def Json.toObject : Json → JsonObject
  | Json.obj kvs => kvs
  | _ => []

/-- Source `QJsonValue::toInt()`: the number held when it fits a 32-bit `int`, else 0. -/
def Json.toInt : Json → Int
  | Json.num n => if -2147483648 ≤ n ∧ n ≤ 2147483647 then n else 0
  | _ => 0

/-- Source `QJsonObject::operator[]( key ) const`: the value under `key`, or undefined. -/
def JsonObject.value (o : JsonObject) (key : String) : Json :=
  match o.find? (fun kv => kv.1 == key) with
  | some kv => kv.2
  | none => Json.undefined

/-- The assignment `o[ key ] = v`: replaces the value under `key` or adds the pair. -/
def JsonObject.assign (o : JsonObject) (key : String) (v : Json) : JsonObject :=
  if o.any (fun kv => kv.1 == key) then
    o.map (fun kv => if kv.1 == key then (key, v) else kv)
  else
    o ++ [(key, v)]

/-- A `QJsonDocument`: empty, or holding an array, or holding an object. -/
inductive QJsonDocument where
  | empty : QJsonDocument
  | ofArray (xs : List Json) : QJsonDocument
  | ofObject (o : JsonObject) : QJsonDocument

/-- Source `QJsonDocument::array()`: the array held, or an empty array. -/
def QJsonDocument.array : QJsonDocument → List Json
  | QJsonDocument.ofArray xs => xs
  | _ => []

/-- The pair `QJsonDocument::toJson` / `QJsonDocument::fromJson`. Qt's text
rendering and its parser are library code; the queue only composes them. -/
structure JsonCodec where
  toJson : QJsonDocument → String
  fromJson : String → QJsonDocument

/-! ## Settings and timers -/

/-- The persistent `QSettings` store: the blob stored under each key, if any. -/
abbrev QSettings := String → Option String

/-- Source `QSettings::contains( key )`. -/
def QSettings.contains (s : QSettings) (key : String) : Bool :=
  (s key).isSome

/-- Source `QSettings::value( key )` followed by `toString()` or `toByteArray()`: the
stored blob, or the empty one when the key is absent. -/
def QSettings.value (s : QSettings) (key : String) : String :=
  (s key).getD ""

/-- Source `QSettings::setValue( key, v )`. -/
def QSettings.setValue (s : QSettings) (key : String) (v : String) : QSettings :=
  fun k => if k = key then some v else s k

/-- Source `QSettings::remove( key )`. -/
def QSettings.remove (s : QSettings) (key : String) : QSettings :=
  fun k => if k = key then none else s k

/-- A `QTimer`: whether it is running and its period in milliseconds. -/
structure QTimer where
  active : Bool
  interval : Nat
deriving DecidableEq, Repr

/-- A timer as `new QTimer` leaves it: not running. -/
def QTimer.fresh : QTimer :=
  { active := false, interval := 0 }

/-- Source `QTimer::start( msec )`: sets the period and (re)starts the timer. -/
def QTimer.start (_t : QTimer) (msec : Nat) : QTimer :=
  { active := true, interval := msec }

/-- Source `QTimer::stop()`. -/
def QTimer.stop (t : QTimer) : QTimer :=
  { t with active := false }

/-- Source `QTimer::isActive()`. -/
def QTimer.isActive (t : QTimer) : Bool :=
  t.active

/-! ## Match results -/

/-- The game mode of a match. -/
inductive GameMode where
  | MODE_RANKED | MODE_CASUAL | MODE_ARENA | MODE_PRACTICE
  | MODE_SOLO_ADVENTURES | MODE_TAVERN_BRAWL | MODE_UNKNOWN
deriving DecidableEq, Repr

/-- The outcome of a match. -/
inductive Outcome where
  | OUTCOME_VICTORY | OUTCOME_DEFEAT | OUTCOME_UNKNOWN
deriving DecidableEq, Repr

/-- Whether the player moved first. -/
inductive GoingOrder where
  | ORDER_FIRST | ORDER_SECOND | ORDER_UNKNOWN
deriving DecidableEq, Repr

/-- A hero class: an enumerated class identifier, or unknown. The enumerators
other than `CLASS_UNKNOWN` are declared outside the two source files, so a known
class is carried by its number. -/
inductive Class where
  | CLASS_UNKNOWN
  | CLASS_KNOWN (id : Nat)
deriving DecidableEq, Repr

/-- Who played a card. -/
inductive Player where
  | PLAYER_SELF | PLAYER_OPPONENT
deriving DecidableEq, Repr

/-- One entry of the card history. -/
structure CardHistoryItem where
  player : Player
  cardId : String
deriving DecidableEq, Repr

/-- The card history of a match, oldest card first. -/
abbrev CardHistoryList := List CardHistoryItem

/-- The `Result` record handed to `ResultQueue::Add`. -/
structure Result where
  mode : GameMode
  outcome : Outcome
  order : GoingOrder
  hero : Class
  opponent : Class
  cardList : CardHistoryList
deriving DecidableEq, Repr

open GameMode Outcome GoingOrder Class Player

/-! ## ResultQueue.cpp -/

/-- The period of the check timer, `30 * 60 * 1000` ms. -/
def RESULT_QUEUE_CHECK_PERIOD : Nat := 30 * 60 * 1000

/-- The period of the upload timer, `5 * 60 * 1000` ms. -/
def RESULT_QUEUE_UPLOAD_PERIOD : Nat := 5 * 60 * 1000

/-- The state of a `ResultQueue`: its members, the settings store it reads and
writes, and the two traces of what it sent outwards. -/
structure ResultQueue where
  /-- Source `mQueue`, head first. -/
  mQueue : List Json
  mCheckTimer : QTimer
  mUploadTimer : QTimer
  /-- The process-wide `QSettings` store. -/
  settings : QSettings
  /-- The arguments of the calls `mWebProfile.UploadResult( result )`, oldest first. -/
  uploads : List JsonObject
  /-- The arguments of the emitted `ResultUploaded( id )` signals, oldest first. -/
  resultUploaded : List Int

namespace ResultQueue

/-- Source `ResultQueue::Load()`. -/
def Load (codec : JsonCodec) (q : ResultQueue) : ResultQueue :=
  if q.settings.contains "resultsQueue" then
    let doc := codec.fromJson (q.settings.value "resultsQueue")
    { q with mQueue := doc.array, settings := q.settings.remove "resultsQueue" }
  else
    q

/-- Source `ResultQueue::Save()`. -/
def Save (codec : JsonCodec) (q : ResultQueue) : ResultQueue :=
  { q with settings :=
      q.settings.setValue "resultsQueue" (codec.toJson (QJsonDocument.ofArray q.mQueue)) }

/-- The constructor `ResultQueue::ResultQueue()`, run against the settings store
`settings`: the check timer is started, the upload timer is created stopped, and
`Load()` is called. -/
def create (codec : JsonCodec) (settings : QSettings) : ResultQueue :=
  Load codec
    { mQueue := []
      mCheckTimer := QTimer.fresh.start RESULT_QUEUE_CHECK_PERIOD
      mUploadTimer := QTimer.fresh
      settings := settings
      uploads := []
      resultUploaded := [] }

/-- The destructor `ResultQueue::~ResultQueue()`. -/
def destroy (codec : JsonCodec) (q : ResultQueue) : ResultQueue :=
  Save codec q

/-- Source `ResultQueue::Upload()`. -/
def Upload (q : ResultQueue) : ResultQueue :=
  match q.mQueue with
  | [] => q
  | head :: rest =>
    let result := head.toObject
    { q with mQueue := rest, uploads := q.uploads ++ [result] }

/-- Source `ResultQueue::Add( res )`. `AsJson` is `Result::AsJson`, which is defined
outside the two source files. -/
def Add (AsJson : Result → JsonObject) (q : ResultQueue) (res : Result) : ResultQueue :=
  if res.mode = MODE_SOLO_ADVENTURES then q
  else if res.mode = MODE_TAVERN_BRAWL then q
  else if res.outcome = OUTCOME_UNKNOWN then q
  else if res.mode = MODE_UNKNOWN then q
  else if res.order = ORDER_UNKNOWN then q
  else if res.hero = CLASS_UNKNOWN then q
  else if res.opponent = CLASS_UNKNOWN then q
  else Upload { q with mQueue := q.mQueue ++ [Json.obj (AsJson res)] }

/-- Source `ResultQueue::UploadResultFailed( result, errorCode )`. -/
def UploadResultFailed (q : ResultQueue) (result : JsonObject) (_errorCode : Int) :
    ResultQueue :=
  { q with mQueue := q.mQueue ++ [Json.obj result], mUploadTimer := q.mUploadTimer.stop }

/-- Source `ResultQueue::UploadResultSucceeded( response )`. -/
def UploadResultSucceeded (q : ResultQueue) (response : JsonObject) : ResultQueue :=
  let id := ((response.value "result").toObject.value "id").toInt
  let q := if id ≠ 0 then { q with resultUploaded := q.resultUploaded ++ [id] } else q
  { q with mUploadTimer := q.mUploadTimer.start RESULT_QUEUE_UPLOAD_PERIOD }

/-- Source `ResultQueue::Check()`. -/
def Check (q : ResultQueue) : ResultQueue :=
  if q.mUploadTimer.isActive then q else Upload q

/-- The member functions that can be called on a queue between its construction
and its destruction. -/
inductive Operation where
  | Add (res : Result)
  | Upload
  | Check
  | UploadResultSucceeded (response : JsonObject)
  | UploadResultFailed (result : JsonObject) (errorCode : Int)

/-- The effect of one member function call. -/
def perform (AsJson : Result → JsonObject) (q : ResultQueue) : Operation → ResultQueue
  | Operation.Add res => Add AsJson q res
  | Operation.Upload => Upload q
  | Operation.Check => Check q
  | Operation.UploadResultSucceeded response => UploadResultSucceeded q response
  | Operation.UploadResultFailed result errorCode => UploadResultFailed q result errorCode

/-- What can happen to a queue between construction and destruction: a call of
`Add` from outside, a tick of either timer, or one of the two signals of the web
client. -/
inductive Event where
  | Add (res : Result)
  | CheckTimerTick
  | UploadTimerTick
  | UploadResultSucceeded (response : JsonObject)
  | UploadResultFailed (result : JsonObject) (errorCode : Int)

/-- One step of the queue. A timer ticks only while it is running: `none` says
that the event cannot happen in this state. The constructor connects the check
timer to `Check()` and the upload timer to `Upload()`. -/
def step (AsJson : Result → JsonObject) (q : ResultQueue) : Event → Option ResultQueue
  | Event.Add res => some (perform AsJson q (Operation.Add res))
  | Event.CheckTimerTick =>
    if q.mCheckTimer.isActive then some (perform AsJson q Operation.Check) else none
  | Event.UploadTimerTick =>
    if q.mUploadTimer.isActive then some (perform AsJson q Operation.Upload) else none
  | Event.UploadResultSucceeded response =>
    some (perform AsJson q (Operation.UploadResultSucceeded response))
  | Event.UploadResultFailed result errorCode =>
    some (perform AsJson q (Operation.UploadResultFailed result errorCode))

/-- A run: the events of a list handled one after the other. -/
def run (AsJson : Result → JsonObject) : ResultQueue → List Event → Option ResultQueue
  | q, [] => some q
  | q, e :: es =>
    match step AsJson q e with
    | some q' => run AsJson q' es
    | none => none

/-- The test `ResultQueue::Add` applies before it enqueues: the result is
skipped when this holds. -/
def skipped (res : Result) : Bool :=
  res.mode = MODE_SOLO_ADVENTURES || res.mode = MODE_TAVERN_BRAWL ||
  res.outcome = OUTCOME_UNKNOWN || res.mode = MODE_UNKNOWN ||
  res.order = ORDER_UNKNOWN || res.hero = CLASS_UNKNOWN || res.opponent = CLASS_UNKNOWN

/-- The events that neither reach `Upload()` nor restart the upload timer: an `Add`
of a result that is skipped, and `UploadResultFailed`. -/
def Event.quiet : Event → Bool
  | Event.Add res => skipped res
  | Event.UploadResultFailed _ _ => true
  | _ => false

end ResultQueue

/-! ## Tracker.cpp -/

/-- The default service origin, `DEFAULT_WEBSERVICE_URL`. -/
def DEFAULT_WEBSERVICE_URL : String := "https://trackobot.com"

/-- What `Tracker.cpp` takes from its build and its surroundings: whether `_DEBUG`
is defined, the `VERSION` and `PLATFORM` string macros, the name tables
`MODE_NAMES` and `CLASS_NAMES`, the window size reported by
`Hearthstone::Instance()`, and Qt's `toBase64`. All of them are declared outside
the two source files. -/
structure TrackerEnv where
  debug : Bool
  VERSION : String
  PLATFORM : String
  MODE_NAMES : GameMode → String
  CLASS_NAMES : Class → String
  GetWidth : Int
  GetHeight : Int
  toBase64 : String → String

/-- A `QNetworkRequest` as `Tracker.cpp` fills it in. -/
structure QNetworkRequest where
  url : String
  userAgent : String
  authorization : Option String
  contentType : Option String
deriving DecidableEq, Repr

/-- The body of a posted request: the empty byte array, or the bytes
`QtJson::serialize( params )`, kept as the JSON value that is rendered. -/
inductive PostData where
  | empty : PostData
  | serialized (params : Json) : PostData

/-- One call `networkManager.post( request, data )`. -/
structure Post where
  request : QNetworkRequest
  data : PostData

/-- The state of the `Tracker`: its six counters, the settings store, and the
trace of the requests it posted. The counters are declared in `Tracker.h`, which
is outside the source files; they are counted in unbounded naturals. -/
structure Tracker where
  successfulResultCount : Nat
  unknownOutcomeCount : Nat
  unknownModeCount : Nat
  unknownOrderCount : Nat
  unknownClassCount : Nat
  unknownOpponentCount : Nat
  settings : QSettings
  /-- The calls `networkManager.post( request, data )`, oldest first. -/
  posts : List Post

namespace Tracker

/-- The constructor `Tracker::Tracker()`, run against the settings store `settings`. -/
def create (settings : QSettings) : Tracker :=
  { successfulResultCount := 0
    unknownOutcomeCount := 0
    unknownModeCount := 0
    unknownOrderCount := 0
    unknownClassCount := 0
    unknownOpponentCount := 0
    settings := settings
    posts := [] }

/-- Source `Tracker::Username()`. -/
def Username (t : Tracker) : String :=
  t.settings.value "username"

/-- Source `Tracker::Password()`. -/
def Password (t : Tracker) : String :=
  t.settings.value "password"

/-- Source `Tracker::SetWebserviceURL( webserviceUrl )`. -/
def SetWebserviceURL (t : Tracker) (webserviceUrl : String) : Tracker :=
  { t with settings := t.settings.setValue "webserviceUrl" webserviceUrl }

/-- Source `Tracker::WebserviceURL()`: the returned string and the state afterwards. -/
def WebserviceURL (t : Tracker) : String × Tracker :=
  let t :=
    if !t.settings.contains "webserviceUrl" || (t.settings.value "webserviceUrl").isEmpty then
      SetWebserviceURL t DEFAULT_WEBSERVICE_URL
    else
      t
  (t.settings.value "webserviceUrl", t)

/-- Source `Tracker::WebserviceURL( path )`. -/
def WebserviceURLAt (t : Tracker) (path : String) : String × Tracker :=
  let r := WebserviceURL t
  (r.1 ++ path, r.2)

/-- Source `Tracker::CreateTrackerRequest( path )`. -/
def CreateTrackerRequest (env : TrackerEnv) (t : Tracker) (path : String) :
    QNetworkRequest × Tracker :=
  let r := WebserviceURLAt t path
  ({ url := r.1
     userAgent := "Track-o-Bot/" ++ env.VERSION ++ env.PLATFORM
     authorization := none
     contentType := none }, r.2)

/-- Source `Tracker::AuthPostJson( path, data )`. -/
def AuthPostJson (env : TrackerEnv) (t : Tracker) (path : String) (data : PostData) : Tracker :=
  let credentials := "Basic " ++ env.toBase64 (Username t ++ ":" ++ Password t)
  let r := CreateTrackerRequest env t path
  let request :=
    { r.1 with authorization := some credentials, contentType := some "application/json" }
  { r.2 with posts := r.2.posts ++ [{ request := request, data := data }] }

/-- The loop of `Tracker::AddResult` that looks up the order in the card history:
it stops at the first entry whose card is the coin. -/
def orderFallback : CardHistoryList → GoingOrder → GoingOrder
  | [], order => order
  | it :: rest, order =>
    if it.cardId = "GAME_005" then
      if it.player = PLAYER_SELF then ORDER_SECOND else ORDER_FIRST
    else
      orderFallback rest order

/-- The order `Tracker::AddResult` works with after its fallback: the card history
is consulted only when the given order is unknown. -/
def orderAfterFallback (order : GoingOrder) (historyCardList : CardHistoryList) : GoingOrder :=
  if order = ORDER_UNKNOWN then orderFallback historyCardList order else order

/-- The `result` object `Tracker::AddResult` builds for an accepted record. -/
def resultJson (env : TrackerEnv) (mode : GameMode) (outcome : Outcome) (order : GoingOrder)
    (ownClass opponentClass : Class) (historyCardList : CardHistoryList) : JsonObject :=
  let result : JsonObject := []
  let result := result.assign "coin" (Json.bool (order = ORDER_SECOND))
  let result := result.assign "hero" (Json.str (env.CLASS_NAMES ownClass))
  let result := result.assign "opponent" (Json.str (env.CLASS_NAMES opponentClass))
  let result := result.assign "win" (Json.bool (outcome = OUTCOME_VICTORY))
  let result := result.assign "mode" (Json.str (env.MODE_NAMES mode))
  let card_history : List Json := historyCardList.map fun it =>
    let item : JsonObject := []
    let item := item.assign "player"
      (Json.str (if it.player = PLAYER_SELF then "me" else "opponent"))
    let item := item.assign "card_id" (Json.str it.cardId)
    Json.obj item
  result.assign "card_history" (Json.arr card_history)

/-- The `_meta` array `Tracker::AddResult` builds, from the counters as they stand. -/
def metaJson (env : TrackerEnv) (t : Tracker) : List Json :=
  [ Json.num t.successfulResultCount
  , Json.num t.unknownOutcomeCount
  , Json.num t.unknownModeCount
  , Json.num t.unknownOrderCount
  , Json.num t.unknownClassCount
  , Json.num t.unknownOpponentCount
  , Json.num env.GetWidth
  , Json.num env.GetHeight
  , Json.str env.VERSION
  , Json.str env.PLATFORM ]

/-- Source `Tracker::AddResult( mode, outcome, order, ownClass, opponentClass,
historyCardList )`. -/
def AddResult (env : TrackerEnv) (t : Tracker) (mode : GameMode) (outcome : Outcome)
    (order : GoingOrder) (ownClass opponentClass : Class)
    (historyCardList : CardHistoryList) : Tracker :=
  if !env.debug && mode = MODE_PRACTICE then t
  else
    let order := orderAfterFallback order historyCardList
    if outcome = OUTCOME_UNKNOWN then
      { t with unknownOutcomeCount := t.unknownOutcomeCount + 1 }
    else if mode = MODE_UNKNOWN then
      { t with unknownModeCount := t.unknownModeCount + 1 }
    else if order = ORDER_UNKNOWN then
      { t with unknownOrderCount := t.unknownOrderCount + 1 }
    else if ownClass = CLASS_UNKNOWN then
      { t with unknownClassCount := t.unknownClassCount + 1 }
    else if opponentClass = CLASS_UNKNOWN then
      { t with unknownOpponentCount := t.unknownOpponentCount + 1 }
    else
      let t := { t with successfulResultCount := t.successfulResultCount + 1 }
      let result := resultJson env mode outcome order ownClass opponentClass historyCardList
      let params : JsonObject := []
      let params := params.assign "result" (Json.obj result)
      let params := params.assign "_meta" (Json.arr (metaJson env t))
      AuthPostJson env t "/profile/results.json" (PostData.serialized (Json.obj params))

/-- The JSON value a posted body renders; undefined for the empty body. -/
def postedParams : PostData → Json
  | PostData.serialized params => params
  | PostData.empty => Json.undefined

/-- The `coin` field of the `result` object of a posted body. -/
def postedCoin (p : Post) : Json :=
  ((postedParams p.data).toObject.value "result").toObject.value "coin"

/-- The position in the `_meta` array of the counter a record is booked under, in
the words of the specification: the fields are tested in the order outcome (1),
mode (2), order (3), own class (4), opponent class (5) and the first unknown one
decides; a record without an unknown field is booked as successful (0). -/
def firstUnknown (outcome : Outcome) (mode : GameMode) (order : GoingOrder)
    (ownClass opponentClass : Class) : Nat :=
  if outcome = OUTCOME_UNKNOWN then 1
  else if mode = MODE_UNKNOWN then 2
  else if order = ORDER_UNKNOWN then 3
  else if ownClass = CLASS_UNKNOWN then 4
  else if opponentClass = CLASS_UNKNOWN then 5
  else 0

/-- The six counters of the tracker, in the order of the `_meta` array. -/
def counters (t : Tracker) : List Nat :=
  [ t.successfulResultCount, t.unknownOutcomeCount, t.unknownModeCount
  , t.unknownOrderCount, t.unknownClassCount, t.unknownOpponentCount ]

end Tracker

/-! ## Example values -/

/-- Name tables and surroundings used in the worked examples. -/
def exampleEnv : TrackerEnv :=
  { debug := false
    VERSION := "0.4.1"
    PLATFORM := "mac"
    MODE_NAMES := fun m =>
      match m with
      | MODE_RANKED => "ranked"
      | MODE_CASUAL => "casual"
      | MODE_ARENA => "arena"
      | MODE_PRACTICE => "practice"
      | MODE_SOLO_ADVENTURES => "solo"
      | MODE_TAVERN_BRAWL => "brawl"
      | MODE_UNKNOWN => "unknown"
    CLASS_NAMES := fun c =>
      match c with
      | CLASS_UNKNOWN => "unknown"
      | CLASS_KNOWN 0 => "mage"
      | CLASS_KNOWN 1 => "warrior"
      | CLASS_KNOWN _ => "druid"
    GetWidth := 1024
    GetHeight := 768
    toBase64 := fun s => s }

/-- An example `Result::AsJson`: the object `Tracker::AddResult` builds from the
same fields. -/
def exampleAsJson (res : Result) : JsonObject :=
  Tracker.resultJson exampleEnv res.mode res.outcome res.order res.hero res.opponent
    res.cardList

/-- An example codec: it renders the number of elements of an array and
recognises the rendering of the one document `known`. -/
def exampleCodec (known : QJsonDocument) : JsonCodec :=
  { toJson := fun doc => toString doc.array.length
    fromJson := fun bytes =>
      if bytes = toString known.array.length then known else QJsonDocument.empty }

/-- A settings store that holds nothing. -/
def emptySettings : QSettings := fun _ => none

/-- A queue that was constructed against an empty settings store. -/
def emptyQueue : ResultQueue :=
  ResultQueue.create (exampleCodec QJsonDocument.empty) emptySettings

/-- A queue in which one element is waiting. -/
def waitingQueue : ResultQueue :=
  { emptyQueue with mQueue := [Json.null] }

/-- A success response of the service carrying the id 42. -/
def exampleResponse : JsonObject :=
  [("result", Json.obj [("id", Json.num 42)])]

/-- A complete record: ranked victory, going first, class 0 against class 1. -/
def exampleResult : Result :=
  { mode := MODE_RANKED, outcome := OUTCOME_VICTORY, order := ORDER_FIRST
    hero := CLASS_KNOWN 0, opponent := CLASS_KNOWN 1, cardList := [] }

/-- The same record with the opponent class unknown. -/
def incompleteResult : Result :=
  { exampleResult with opponent := CLASS_UNKNOWN }

/-- A second complete record: casual defeat, going second. -/
def secondResult : Result :=
  { mode := MODE_CASUAL, outcome := OUTCOME_DEFEAT, order := ORDER_SECOND
    hero := CLASS_KNOWN 1, opponent := CLASS_KNOWN 0, cardList := [] }

/-- A queue after a failed attempt: `exampleResult` and `secondResult` were added
to the empty queue, each uploaded at once, and the web client reported status 500
for the first of them while the second is still in flight. -/
def failedQueue : ResultQueue :=
  ResultQueue.UploadResultFailed
    (ResultQueue.Add exampleAsJson (ResultQueue.Add exampleAsJson emptyQueue exampleResult)
      secondResult)
    (exampleAsJson exampleResult) 500

/-- A queue of two elements about to be saved. -/
def savedQueue : ResultQueue :=
  { emptyQueue with
    mQueue := [Json.obj (exampleAsJson exampleResult), Json.obj (exampleAsJson secondResult)] }

/-- A card history in which the coin is first played by the player and later once
more by the opponent. -/
def coinHistory : CardHistoryList :=
  [ { player := PLAYER_OPPONENT, cardId := "CS2_101" }
  , { player := PLAYER_SELF, cardId := "GAME_005" }
  , { player := PLAYER_OPPONENT, cardId := "GAME_005" } ]

/-- A settings store holding credentials and a saved queue. -/
def storedSettings : QSettings :=
  fun k =>
    if k = "resultsQueue" then some "2"
    else if k = "username" then some "u"
    else if k = "password" then some "p"
    else none

/-! ## Tracker.cpp: account set-up and TLS errors -/

namespace Tracker

/-- Source `Tracker::IsAccountSetUp()`. -/
def IsAccountSetUp (t : Tracker) : Bool :=
  t.settings.contains "username" && t.settings.contains "password" &&
    !(t.settings.value "username").isEmpty && !(t.settings.value "password").isEmpty

/-- Source `Tracker::CreateAndStoreAccount()`: the request is posted with an empty body. -/
def CreateAndStoreAccount (env : TrackerEnv) (t : Tracker) : Tracker :=
  let r := CreateTrackerRequest env t "/users.json"
  { r.2 with posts := r.2.posts ++ [{ request := r.1, data := PostData.empty }] }

/-- Source `Tracker::EnsureAccountIsSetUp()`. -/
def EnsureAccountIsSetUp (env : TrackerEnv) (t : Tracker) : Tracker :=
  if !IsAccountSetUp t then CreateAndStoreAccount env t else t

/-- What the specification calls holding both a non-empty username and a non-empty
password: each key is present and its value is not the empty string. -/
def holdsCredentials (s : QSettings) : Bool :=
  match s "username", s "password" with
  | some u, some p => u ≠ "" && p ≠ ""
  | _, _ => false

/-- The `result` object of a posted body. -/
def postedResult (p : Post) : JsonObject :=
  ((postedParams p.data).toObject.value "result").toObject

/-- The `_meta` value of a posted body. -/
def postedMeta (p : Post) : Json :=
  (postedParams p.data).toObject.value "_meta"

end Tracker

/-- The kinds of `QSslError` that `Tracker::SSLErrors` tells apart: the two
self-signed ones by name, every other enumerator of `QSslError::SslError` by its
number. -/
inductive SslErrorKind where
  | SelfSignedCertificate
  | SelfSignedCertificateInChain
  | Other (code : Nat)
deriving DecidableEq, Repr

/-- A `QSslError`: its kind, as `error()` returns it, and the certificate it is about. -/
structure QSslError where
  error : SslErrorKind
  certificate : String
deriving DecidableEq, Repr

namespace Tracker

/-- Source `Tracker::SSLErrors( reply, errors )`: the list `errorsToIgnore` that is
handed to `reply->ignoreSslErrors`. The loop appends to the list error by error. -/
def SSLErrors (errors : List QSslError) : List QSslError :=
  errors.foldl
    (fun errorsToIgnore err =>
      if err.error = SslErrorKind.SelfSignedCertificate ∨
          err.error = SslErrorKind.SelfSignedCertificateInChain then
        errorsToIgnore ++ [err]
      else
        errorsToIgnore)
    []

end Tracker

/-! ## A failed upload attempt -/

/-- Whether a JSON value is an object. -/
def Json.isObject : Json → Bool
  | Json.obj _ => true
  | _ => false

namespace ResultQueue

/-- One attempt that fails: `Upload()` hands the head of the queue to the web
client, which reports the failure with the object it was given. On an empty queue
`Upload()` sends nothing, so nothing comes back. -/
def failedAttempt (errorCode : Int) (q : ResultQueue) : ResultQueue :=
  match q.mQueue with
  | [] => Upload q
  | head :: _ => UploadResultFailed (Upload q) head.toObject errorCode

end ResultQueue

/-! ## More example values -/

/-- A settings store holding nothing but credentials. -/
def credentialSettings : QSettings :=
  fun k => if k = "username" then some "u" else if k = "password" then some "p" else none

/-- A settings store holding credentials and a service URL. -/
def urlSettings : QSettings :=
  fun k =>
    if k = "webserviceUrl" then some "http://localhost:3000"
    else if k = "username" then some "u"
    else if k = "password" then some "p"
    else none

/-- A list of TLS errors of three kinds. -/
def exampleSslErrors : List QSslError :=
  [ { error := SslErrorKind.Other 6, certificate := "leaf" }
  , { error := SslErrorKind.SelfSignedCertificateInChain, certificate := "root" }
  , { error := SslErrorKind.Other 22, certificate := "leaf" }
  , { error := SslErrorKind.SelfSignedCertificate, certificate := "leaf" } ]

/-- A queue of the two example result objects with an active upload timer. -/
def drainingQueue : ResultQueue :=
  { savedQueue with mUploadTimer := QTimer.fresh.start RESULT_QUEUE_UPLOAD_PERIOD }

/-- A card history in which the player plays the coin. -/
def selfCoinHistory : CardHistoryList :=
  [ { player := PLAYER_SELF, cardId := "GAME_005" } ]

/-! ## Helper lemmas -/

namespace ResultQueue

theorem Add_of_accepted (AsJson : Result → JsonObject) (q : ResultQueue) (m : Result)
    (hsolo : m.mode ≠ MODE_SOLO_ADVENTURES) (hbrawl : m.mode ≠ MODE_TAVERN_BRAWL)
    (houtcome : m.outcome ≠ OUTCOME_UNKNOWN) (hmode : m.mode ≠ MODE_UNKNOWN)
    (horder : m.order ≠ ORDER_UNKNOWN) (hhero : m.hero ≠ CLASS_UNKNOWN)
    (hopp : m.opponent ≠ CLASS_UNKNOWN) :
    Add AsJson q m = Upload { q with mQueue := q.mQueue ++ [Json.obj (AsJson m)] } := by
  simp [Add, hsolo, hbrawl, houtcome, hmode, horder, hhero, hopp]

theorem Add_of_skipped (AsJson : Result → JsonObject) (q : ResultQueue) (m : Result)
    (h : skipped m = true) : Add AsJson q m = q := by
  simp only [skipped, Bool.or_eq_true, decide_eq_true_eq] at h
  simp only [Add]
  split_ifs <;> first | rfl | (exfalso; tauto)

theorem run_quiet (AsJson : Result → JsonObject) :
    ∀ (es : List Event) (q : ResultQueue), q.mUploadTimer.isActive = false →
      (∀ e ∈ es, Event.quiet e = true) →
      ∃ q', run AsJson q es = some q' ∧ q'.uploads = q.uploads ∧
        q'.mUploadTimer.isActive = false := by
  intro es
  induction es with
  | nil => intro q hq _; exact ⟨q, rfl, rfl, hq⟩
  | cons e es ih =>
    intro q hq hall
    have he : Event.quiet e = true := hall e (List.mem_cons_self e es)
    have hes : ∀ e' ∈ es, Event.quiet e' = true :=
      fun e' he' => hall e' (List.mem_cons_of_mem e he')
    cases e with
    | Add res =>
      have hskip : skipped res = true := he
      obtain ⟨q', hrun, hup, hact⟩ := ih q hq hes
      exact ⟨q', by simp [run, step, perform, Add_of_skipped AsJson q res hskip, hrun],
        hup, hact⟩
    | UploadResultFailed result errorCode =>
      obtain ⟨q', hrun, hup, hact⟩ := ih (UploadResultFailed q result errorCode) rfl hes
      exact ⟨q', by simp [run, step, perform, hrun], hup, hact⟩
    | CheckTimerTick => simp [Event.quiet] at he
    | UploadTimerTick => simp [Event.quiet] at he
    | UploadResultSucceeded response => simp [Event.quiet] at he

theorem perform_settings (AsJson : Result → JsonObject) (q : ResultQueue) (op : Operation) :
    (perform AsJson q op).settings = q.settings := by
  have hup : ∀ q : ResultQueue, (Upload q).settings = q.settings := by
    intro q
    unfold Upload
    split <;> rfl
  cases op with
  | Add res =>
    simp only [perform, Add]
    split_ifs <;> first | rfl | exact hup _
  | Upload => exact hup q
  | Check =>
    simp only [perform, Check]
    split_ifs <;> first | rfl | exact hup _
  | UploadResultSucceeded response =>
    simp only [perform, UploadResultSucceeded]
    split_ifs <;> rfl
  | UploadResultFailed result errorCode => rfl

theorem foldl_perform_settings (AsJson : Result → JsonObject) :
    ∀ (ops : List Operation) (q : ResultQueue),
      (ops.foldl (perform AsJson) q).settings = q.settings := by
  intro ops
  induction ops with
  | nil => intro q; rfl
  | cons op ops ih =>
    intro q
    rw [List.foldl_cons, ih, perform_settings]

end ResultQueue

namespace Tracker

theorem AuthPostJson_eq (env : TrackerEnv) (t : Tracker) (path : String) (data : PostData) :
    AuthPostJson env t path data
      = { t with
          settings := (WebserviceURL t).2.settings
          posts := t.posts ++
            [{ request :=
                { url := (WebserviceURL t).1 ++ path
                  userAgent := "Track-o-Bot/" ++ env.VERSION ++ env.PLATFORM
                  authorization :=
                    some ("Basic " ++ env.toBase64 (Username t ++ ":" ++ Password t))
                  contentType := some "application/json" }
               data := data }] } := by
  simp only [AuthPostJson, CreateTrackerRequest, WebserviceURLAt, WebserviceURL,
    SetWebserviceURL]
  split_ifs <;> rfl

theorem orderFallback_eq_find (history : CardHistoryList) :
    orderFallback history ORDER_UNKNOWN
      = match history.find? (fun it => it.cardId = "GAME_005") with
        | some it => if it.player = PLAYER_SELF then ORDER_SECOND else ORDER_FIRST
        | none => ORDER_UNKNOWN := by
  induction history with
  | nil => rfl
  | cons it rest ih =>
    by_cases h : it.cardId = "GAME_005"
    · simp [orderFallback, List.find?, h]
    · simp [orderFallback, List.find?, h, ih]

theorem resultJson_coin (env : TrackerEnv) (mode : GameMode) (outcome : Outcome)
    (order : GoingOrder) (ownClass opponentClass : Class) (history : CardHistoryList) :
    (resultJson env mode outcome order ownClass opponentClass history).value "coin"
      = Json.bool (decide (order = ORDER_SECOND)) := by
  simp [resultJson, JsonObject.assign, JsonObject.value, List.find?]

theorem AddResult_accepted (env : TrackerEnv) (t : Tracker) (mode : GameMode)
    (outcome : Outcome) (order : GoingOrder) (ownClass opponentClass : Class)
    (history : CardHistoryList) (hgate : env.debug = true ∨ mode ≠ MODE_PRACTICE)
    (houtcome : outcome ≠ OUTCOME_UNKNOWN) (hmode : mode ≠ MODE_UNKNOWN)
    (horder : orderAfterFallback order history ≠ ORDER_UNKNOWN)
    (hown : ownClass ≠ CLASS_UNKNOWN) (hopp : opponentClass ≠ CLASS_UNKNOWN) :
    ∃ (s : QSettings) (p : Post),
      AddResult env t mode outcome order ownClass opponentClass history
        = { t with
            successfulResultCount := t.successfulResultCount + 1
            settings := s
            posts := t.posts ++ [p] } ∧
      postedCoin p = Json.bool (decide (orderAfterFallback order history = ORDER_SECOND)) := by
  have hg : (!env.debug && decide (mode = MODE_PRACTICE)) = false := by
    rcases hgate with h | h <;> simp [h]
  simp only [AddResult, hg, houtcome, hmode, horder, hown, hopp, if_false, Bool.false_eq_true]
  rw [AuthPostJson_eq]
  refine ⟨_, _, rfl, ?_⟩
  simp only [postedCoin, postedParams, Json.toObject]
  simp [JsonObject.assign, JsonObject.value, List.find?, resultJson_coin]

end Tracker

/-! ## The result queue: filtering, failure and success handling -/

/-- C1 (filter soundness). When the mode of `m` is solo adventures or tavern brawl,
or one of outcome, mode, order, hero, opponent is unknown, `Add` returns the state
it was given: the queue, the trace of uploads handed to the web client, both
timers and every other field are unchanged. -/
theorem C1_add_skips_incomplete_result (AsJson : Result → JsonObject) (q : ResultQueue)
    (m : Result)
    (h : m.mode = MODE_SOLO_ADVENTURES ∨ m.mode = MODE_TAVERN_BRAWL ∨
      m.outcome = OUTCOME_UNKNOWN ∨ m.mode = MODE_UNKNOWN ∨ m.order = ORDER_UNKNOWN ∨
      m.hero = CLASS_UNKNOWN ∨ m.opponent = CLASS_UNKNOWN) :
    ResultQueue.Add AsJson q m = q ∧
      (ResultQueue.Add AsJson q m).mQueue = q.mQueue ∧
      (ResultQueue.Add AsJson q m).uploads = q.uploads ∧
      (ResultQueue.Add AsJson q m).mCheckTimer = q.mCheckTimer ∧
      (ResultQueue.Add AsJson q m).mUploadTimer = q.mUploadTimer := by
  have hq : ResultQueue.Add AsJson q m = q := by
    simp only [ResultQueue.Add]
    split_ifs <;> first | rfl | (exfalso; tauto)
  rw [hq]
  exact ⟨rfl, rfl, rfl, rfl, rfl⟩

/-- Witness for C1: a ranked victory whose opponent class is unknown, added to a
queue holding one element. -/
theorem C1_add_skips_incomplete_result_witness :
    incompleteResult.opponent = CLASS_UNKNOWN ∧
      (ResultQueue.Add exampleAsJson waitingQueue incompleteResult).mQueue = [Json.null] ∧
      (ResultQueue.Add exampleAsJson waitingQueue incompleteResult).uploads = [] :=
  ⟨rfl,
   (C1_add_skips_incomplete_result exampleAsJson waitingQueue incompleteResult
      (Or.inr (Or.inr (Or.inr (Or.inr (Or.inr (Or.inr rfl))))))).2.1,
   (C1_add_skips_incomplete_result exampleAsJson waitingQueue incompleteResult
      (Or.inr (Or.inr (Or.inr (Or.inr (Or.inr (Or.inr rfl))))))).2.2.1⟩

/-- C2 as stated fails: a complete ranked result added to an empty queue leaves the
queue empty, because `Add` calls `Upload()` right after appending; the size is not
one greater than before. -/
theorem C2_size_not_increased :
    exampleResult.mode = MODE_RANKED ∧ exampleResult.outcome = OUTCOME_VICTORY ∧
      exampleResult.order = ORDER_FIRST ∧ exampleResult.hero = CLASS_KNOWN 0 ∧
      exampleResult.opponent = CLASS_KNOWN 1 ∧
      emptyQueue.mQueue.length = 0 ∧
      (ResultQueue.Add exampleAsJson emptyQueue exampleResult).mQueue.length = 0 ∧
      ¬ ((ResultQueue.Add exampleAsJson emptyQueue exampleResult).mQueue.length
          = emptyQueue.mQueue.length + 1) := by
  decide

/-- C2 (amended). For a result `m` with no unknown field and a mode other than solo
adventures and tavern brawl, `Add` appends the serialized `m` to the tail of the
queue and then, before it returns, `Upload()` takes the head of that sequence and
hands it to the web client. The queue after `Add` is the tail of `Q ++ [m]`: its
size equals the size before the call, and exactly one upload was issued. -/
theorem C2_add_appends_then_uploads_head (AsJson : Result → JsonObject) (q : ResultQueue)
    (m : Result)
    (hsolo : m.mode ≠ MODE_SOLO_ADVENTURES) (hbrawl : m.mode ≠ MODE_TAVERN_BRAWL)
    (houtcome : m.outcome ≠ OUTCOME_UNKNOWN) (hmode : m.mode ≠ MODE_UNKNOWN)
    (horder : m.order ≠ ORDER_UNKNOWN) (hhero : m.hero ≠ CLASS_UNKNOWN)
    (hopp : m.opponent ≠ CLASS_UNKNOWN) :
    ∃ head rest, q.mQueue ++ [Json.obj (AsJson m)] = head :: rest ∧
      (ResultQueue.Add AsJson q m).mQueue = rest ∧
      (ResultQueue.Add AsJson q m).uploads = q.uploads ++ [head.toObject] ∧
      (ResultQueue.Add AsJson q m).mQueue.length = q.mQueue.length := by
  rw [ResultQueue.Add_of_accepted AsJson q m hsolo hbrawl houtcome hmode horder hhero hopp]
  cases hq : q.mQueue with
  | nil => exact ⟨Json.obj (AsJson m), [], rfl, by simp [ResultQueue.Upload, hq]⟩
  | cons a as =>
    exact ⟨a, as ++ [Json.obj (AsJson m)], rfl, by simp [ResultQueue.Upload, hq]⟩

/-- Witness for C2 (amended): a complete ranked result added to a queue that holds
one older element; the older element is uploaded and the new one stays queued. -/
theorem C2_add_appends_then_uploads_head_witness :
    ∃ head rest,
      waitingQueue.mQueue ++ [Json.obj (exampleAsJson exampleResult)] = head :: rest ∧
      (ResultQueue.Add exampleAsJson waitingQueue exampleResult).mQueue = rest ∧
      (ResultQueue.Add exampleAsJson waitingQueue exampleResult).uploads
        = waitingQueue.uploads ++ [head.toObject] ∧
      (ResultQueue.Add exampleAsJson waitingQueue exampleResult).mQueue.length
        = waitingQueue.mQueue.length :=
  C2_add_appends_then_uploads_head exampleAsJson waitingQueue exampleResult
    (by decide) (by decide) (by decide) (by decide) (by decide) (by decide) (by decide)

/-- C3 (failure handling). `UploadResultFailed( r, code )` turns the queue `Q` into
`Q ++ [r]`, leaves the upload timer inactive whatever it was before, and does not
change the check timer. -/
theorem C3_upload_failed_requeues_at_tail (q : ResultQueue) (r : JsonObject) (code : Int) :
    (ResultQueue.UploadResultFailed q r code).mQueue = q.mQueue ++ [Json.obj r] ∧
      (ResultQueue.UploadResultFailed q r code).mUploadTimer.isActive = false ∧
      (ResultQueue.UploadResultFailed q r code).mCheckTimer = q.mCheckTimer :=
  ⟨rfl, rfl, rfl⟩

/-- C4 (the code at the failing input). The queue is empty and the upload timer is
stopped; after `UploadResultSucceeded` the queue is still empty but the upload
timer is running with the 5-minute period. -/
theorem C4_idle_success_starts_upload_timer :
    emptyQueue.mQueue = [] ∧ emptyQueue.mUploadTimer.isActive = false ∧
      (ResultQueue.UploadResultSucceeded emptyQueue exampleResponse).mQueue = [] ∧
      (ResultQueue.UploadResultSucceeded emptyQueue exampleResponse).mUploadTimer.isActive
        = true ∧
      (ResultQueue.UploadResultSucceeded emptyQueue exampleResponse).mUploadTimer.interval
        = 300000 := by
  refine ⟨rfl, rfl, rfl, ?_, ?_⟩ <;>
    simp [ResultQueue.UploadResultSucceeded, QTimer.start, QTimer.isActive,
      RESULT_QUEUE_UPLOAD_PERIOD]

/-- C5 (drain pacing). For a non-empty queue, after `UploadResultSucceeded` the
upload timer is active with period exactly 300000 ms, and the handler changed
neither the queue nor the trace of uploads: the next item is not sent at once. -/
theorem C5_success_starts_upload_timer (q : ResultQueue) (response : JsonObject)
    (_hne : q.mQueue ≠ []) :
    (ResultQueue.UploadResultSucceeded q response).mUploadTimer.isActive = true ∧
      (ResultQueue.UploadResultSucceeded q response).mUploadTimer.interval = 300000 ∧
      (ResultQueue.UploadResultSucceeded q response).mQueue = q.mQueue ∧
      (ResultQueue.UploadResultSucceeded q response).uploads = q.uploads := by
  simp only [ResultQueue.UploadResultSucceeded, QTimer.start, RESULT_QUEUE_UPLOAD_PERIOD]
  split_ifs <;> simp [QTimer.isActive]

/-- Witness for C5: a queue holding one element receives a success response. -/
theorem C5_success_starts_upload_timer_witness :
    waitingQueue.mQueue ≠ [] ∧
      (ResultQueue.UploadResultSucceeded waitingQueue exampleResponse).mUploadTimer.interval
        = 300000 ∧
      (ResultQueue.UploadResultSucceeded waitingQueue exampleResponse).mQueue = [Json.null] :=
  ⟨by simp [waitingQueue],
   (C5_success_starts_upload_timer waitingQueue exampleResponse
      (by simp [waitingQueue])).2.1,
   (C5_success_starts_upload_timer waitingQueue exampleResponse
      (by simp [waitingQueue])).2.2.1⟩

/-! ## The result queue: retry pacing and persistence -/

/-- C6 as stated fails. In `failedQueue` the upload timer is stopped after an
`UploadResultFailed` event and two uploads have been made so far. Without any tick
of the check timer a third upload is made (a) by the next accepted `Add`, which
calls `Upload()` at once, and (b) by a tick of the upload timer after the
`UploadResultSucceeded` event of the other request in flight has restarted it. -/
theorem C6_upload_before_check_tick :
    failedQueue.mUploadTimer.isActive = false ∧
      failedQueue.uploads.length = 2 ∧
      (ResultQueue.run exampleAsJson failedQueue
          [ResultQueue.Event.Add exampleResult]).map (fun q => q.uploads.length) = some 3 ∧
      (ResultQueue.run exampleAsJson failedQueue
          [ResultQueue.Event.UploadResultSucceeded exampleResponse,
           ResultQueue.Event.UploadTimerTick]).map (fun q => q.uploads.length) = some 3 := by
  decide

/-- C6 (amended). After an `UploadResultFailed` event the upload timer is stopped.
As long as only skipped `Add`s and further `UploadResultFailed` events follow, the
run goes through, no call to the web client's `UploadResult` is made, the upload
timer stays stopped and so cannot tick. (An accepted `Add` uploads at once, and an
`UploadResultSucceeded` event restarts the upload timer; neither waits for the
check timer.) -/
theorem C6_no_upload_while_only_failures_and_skips (AsJson : Result → JsonObject)
    (q : ResultQueue) (r : JsonObject) (code : Int) (es : List ResultQueue.Event)
    (hquiet : ∀ e ∈ es, ResultQueue.Event.quiet e = true) :
    (ResultQueue.UploadResultFailed q r code).mUploadTimer.isActive = false ∧
      ∃ q', ResultQueue.run AsJson (ResultQueue.UploadResultFailed q r code) es = some q' ∧
        q'.uploads = q.uploads ∧
        q'.mUploadTimer.isActive = false ∧
        ResultQueue.step AsJson q' ResultQueue.Event.UploadTimerTick = none := by
  refine ⟨rfl, ?_⟩
  obtain ⟨q', hrun, hup, hact⟩ :=
    ResultQueue.run_quiet AsJson es (ResultQueue.UploadResultFailed q r code) rfl hquiet
  exact ⟨q', hrun, hup, hact, by simp [ResultQueue.step, hact]⟩

/-- Witness for C6 (amended): after a failure, a skipped `Add` and a second failure
follow; the trace of uploads is the one before the first failure. -/
theorem C6_no_upload_while_only_failures_and_skips_witness :
    (∀ e ∈ [ResultQueue.Event.Add incompleteResult,
        ResultQueue.Event.UploadResultFailed exampleResponse 0],
        ResultQueue.Event.quiet e = true) ∧
      ∃ q', ResultQueue.run exampleAsJson
          (ResultQueue.UploadResultFailed waitingQueue (exampleAsJson exampleResult) 500)
          [ResultQueue.Event.Add incompleteResult,
           ResultQueue.Event.UploadResultFailed exampleResponse 0] = some q' ∧
        q'.uploads = waitingQueue.uploads ∧
        q'.mUploadTimer.isActive = false ∧
        ResultQueue.step exampleAsJson q' ResultQueue.Event.UploadTimerTick = none :=
  ⟨by decide,
   (C6_no_upload_while_only_failures_and_skips exampleAsJson waitingQueue
      (exampleAsJson exampleResult) 500
      [ResultQueue.Event.Add incompleteResult,
       ResultQueue.Event.UploadResultFailed exampleResponse 0] (by decide)).2⟩

/-- C7 (persistence round trip). When the document parser gives back the array the
serializer rendered, `Save()` followed by the construction of a fresh queue (which
runs `Load()` on an empty queue) against the same settings store yields the saved
queue: same length, same order, same values. -/
theorem C7_save_then_load_roundtrip (codec : JsonCodec) (q : ResultQueue)
    (hcodec : codec.fromJson (codec.toJson (QJsonDocument.ofArray q.mQueue))
      = QJsonDocument.ofArray q.mQueue) :
    (ResultQueue.create codec (ResultQueue.Save codec q).settings).mQueue = q.mQueue := by
  simp [ResultQueue.create, ResultQueue.Load, ResultQueue.Save, QSettings.contains,
    QSettings.value, QSettings.setValue, hcodec, QJsonDocument.array]

/-- Witness for C7: a queue of two result objects is saved and loaded again. -/
theorem C7_save_then_load_roundtrip_witness :
    (exampleCodec (QJsonDocument.ofArray savedQueue.mQueue)).fromJson
        ((exampleCodec (QJsonDocument.ofArray savedQueue.mQueue)).toJson
          (QJsonDocument.ofArray savedQueue.mQueue))
        = QJsonDocument.ofArray savedQueue.mQueue ∧
      (ResultQueue.create (exampleCodec (QJsonDocument.ofArray savedQueue.mQueue))
        (ResultQueue.Save (exampleCodec (QJsonDocument.ofArray savedQueue.mQueue))
          savedQueue).settings).mQueue
        = [Json.obj (exampleAsJson exampleResult), Json.obj (exampleAsJson secondResult)] :=
  ⟨by simp [exampleCodec, QJsonDocument.array],
   C7_save_then_load_roundtrip (exampleCodec (QJsonDocument.ofArray savedQueue.mQueue))
     savedQueue (by simp [exampleCodec, QJsonDocument.array])⟩

/-- C8 (load clears the key). When the settings store contains `resultsQueue`, the
constructed queue has removed that key and left every other key as it was, and the
key stays absent after any sequence of calls of `Add`, `Upload`, `Check`,
`UploadResultSucceeded` and `UploadResultFailed`; only `Save()` writes it again. -/
theorem C8_load_clears_key (codec : JsonCodec) (AsJson : Result → JsonObject)
    (settings : QSettings) (hcontains : settings.contains "resultsQueue" = true) :
    (ResultQueue.create codec settings).settings "resultsQueue" = none ∧
      (∀ k, k ≠ "resultsQueue" → (ResultQueue.create codec settings).settings k = settings k) ∧
      (∀ ops : List ResultQueue.Operation,
        ((ops.foldl (ResultQueue.perform AsJson) (ResultQueue.create codec settings)).settings
          "resultsQueue" = none)) ∧
      (ResultQueue.Save codec (ResultQueue.create codec settings)).settings.contains
        "resultsQueue" = true := by
  have hkey : (ResultQueue.create codec settings).settings "resultsQueue" = none := by
    simp [ResultQueue.create, ResultQueue.Load, hcontains, QSettings.remove]
  refine ⟨hkey, ?_, ?_, ?_⟩
  · intro k hk
    simp [ResultQueue.create, ResultQueue.Load, hcontains, QSettings.remove, hk]
  · intro ops
    rw [ResultQueue.foldl_perform_settings]
    exact hkey
  · simp [ResultQueue.Save, QSettings.contains, QSettings.setValue]

/-- Witness for C8: a store with credentials and a saved queue; after construction
and an `Add`, a `Check` and a failed upload the key is absent and the credentials
are still there. -/
theorem C8_load_clears_key_witness :
    storedSettings.contains "resultsQueue" = true ∧
      (ResultQueue.create (exampleCodec QJsonDocument.empty) storedSettings).settings
          "resultsQueue" = none ∧
      (ResultQueue.create (exampleCodec QJsonDocument.empty) storedSettings).settings
          "username" = some "u" ∧
      (([ResultQueue.Operation.Add exampleResult, ResultQueue.Operation.Check,
          ResultQueue.Operation.UploadResultFailed exampleResponse 500].foldl
          (ResultQueue.perform exampleAsJson)
          (ResultQueue.create (exampleCodec QJsonDocument.empty) storedSettings)).settings
          "resultsQueue" = none) :=
  ⟨by decide,
   (C8_load_clears_key (exampleCodec QJsonDocument.empty) exampleAsJson storedSettings
      (by decide)).1,
   ((C8_load_clears_key (exampleCodec QJsonDocument.empty) exampleAsJson storedSettings
      (by decide)).2.1 "username" (by decide)).trans (by decide),
   (C8_load_clears_key (exampleCodec QJsonDocument.empty) exampleAsJson storedSettings
      (by decide)).2.2.1 _⟩

/-! ## The tracker: order fallback and counters -/

/-- C9 (order fallback). For a call with unknown order whose outcome, mode and both
classes are known and whose mode passes the practice gate: when the card history
holds an entry with card id `GAME_005`, the first such entry (what `List.find?`
returns, whatever follows it) decides the order, second when the player played it
and first when the opponent did, one request is posted and its `coin` field is
true exactly when the player played it; when the history holds no such entry the
order stays unknown, nothing is posted and the record is booked as unknown order. -/
theorem C9_order_fallback (env : TrackerEnv) (t : Tracker) (mode : GameMode)
    (outcome : Outcome) (ownClass opponentClass : Class) (history : CardHistoryList)
    (hgate : env.debug = true ∨ mode ≠ MODE_PRACTICE)
    (houtcome : outcome ≠ OUTCOME_UNKNOWN) (hmode : mode ≠ MODE_UNKNOWN)
    (hown : ownClass ≠ CLASS_UNKNOWN) (hopp : opponentClass ≠ CLASS_UNKNOWN) :
    match history.find? (fun it => it.cardId = "GAME_005") with
    | some it =>
      Tracker.orderAfterFallback ORDER_UNKNOWN history
          = (if it.player = PLAYER_SELF then ORDER_SECOND else ORDER_FIRST) ∧
        ∃ p, (Tracker.AddResult env t mode outcome ORDER_UNKNOWN ownClass opponentClass
            history).posts = t.posts ++ [p] ∧
          Tracker.postedCoin p = Json.bool (decide (it.player = PLAYER_SELF))
    | none =>
      Tracker.orderAfterFallback ORDER_UNKNOWN history = ORDER_UNKNOWN ∧
        (Tracker.AddResult env t mode outcome ORDER_UNKNOWN ownClass opponentClass
          history).posts = t.posts ∧
        (Tracker.AddResult env t mode outcome ORDER_UNKNOWN ownClass opponentClass
          history).unknownOrderCount = t.unknownOrderCount + 1 ∧
        (Tracker.AddResult env t mode outcome ORDER_UNKNOWN ownClass opponentClass
          history).successfulResultCount = t.successfulResultCount := by
  have hfb : Tracker.orderAfterFallback ORDER_UNKNOWN history
      = Tracker.orderFallback history ORDER_UNKNOWN := by
    simp [Tracker.orderAfterFallback]
  have hfind := Tracker.orderFallback_eq_find history
  split
  · next it hit =>
    rw [hit] at hfind
    have horder : Tracker.orderAfterFallback ORDER_UNKNOWN history
        = (if it.player = PLAYER_SELF then ORDER_SECOND else ORDER_FIRST) := by
      rw [hfb, hfind]
    have hne : Tracker.orderAfterFallback ORDER_UNKNOWN history ≠ ORDER_UNKNOWN := by
      rw [horder]; split_ifs <;> decide
    obtain ⟨s, p, hadd, hcoin⟩ := Tracker.AddResult_accepted env t mode outcome ORDER_UNKNOWN
      ownClass opponentClass history hgate houtcome hmode hne hown hopp
    refine ⟨horder, p, by rw [hadd], ?_⟩
    rw [hcoin, horder]
    by_cases hp : it.player = PLAYER_SELF <;> simp [hp]
  · next hnone =>
    rw [hnone] at hfind
    have horder : Tracker.orderAfterFallback ORDER_UNKNOWN history = ORDER_UNKNOWN := by
      rw [hfb, hfind]
    have hg : (!env.debug && decide (mode = MODE_PRACTICE)) = false := by
      rcases hgate with h | h <;> simp [h]
    refine ⟨horder, ?_, ?_, ?_⟩ <;>
      simp [Tracker.AddResult, hg, houtcome, hmode, horder]

/-- Witness for C9: a ranked victory with unknown order whose history shows the coin
played first by the player: one request is posted and its `coin` field is true. -/
theorem C9_order_fallback_witness :
    (exampleEnv.debug = true ∨ MODE_RANKED ≠ MODE_PRACTICE) ∧
      ∃ p, (Tracker.AddResult exampleEnv (Tracker.create storedSettings) MODE_RANKED
          OUTCOME_VICTORY ORDER_UNKNOWN (CLASS_KNOWN 0) (CLASS_KNOWN 1) coinHistory).posts
          = (Tracker.create storedSettings).posts ++ [p] ∧
        Tracker.postedCoin p = Json.bool true :=
  ⟨by decide,
   (C9_order_fallback exampleEnv (Tracker.create storedSettings) MODE_RANKED OUTCOME_VICTORY
      (CLASS_KNOWN 0) (CLASS_KNOWN 1) coinHistory (by decide) (by decide) (by decide)
      (by decide) (by decide)).2⟩

/-- C10 (counter bookkeeping). For every call that passes the practice gate, with
`k` the position of the first unknown field among outcome, mode, order after the
fallback, own class, opponent class (0 when none is unknown): the counter at
position `k` grows by exactly 1 and the other five are unchanged; when `k` is not 0
no request is posted, and when `k` is 0 the successful counter grew and exactly one
request was posted. -/
theorem C10_counter_bookkeeping (env : TrackerEnv) (t : Tracker) (mode : GameMode)
    (outcome : Outcome) (order : GoingOrder) (ownClass opponentClass : Class)
    (history : CardHistoryList) (hgate : env.debug = true ∨ mode ≠ MODE_PRACTICE) :
    (∀ i, i < 6 →
      (Tracker.counters (Tracker.AddResult env t mode outcome order ownClass opponentClass
          history)).getD i 0
        = (Tracker.counters t).getD i 0
          + (if i = Tracker.firstUnknown outcome mode
                (Tracker.orderAfterFallback order history) ownClass opponentClass
             then 1 else 0)) ∧
      (if Tracker.firstUnknown outcome mode (Tracker.orderAfterFallback order history)
            ownClass opponentClass = 0
       then ∃ p, (Tracker.AddResult env t mode outcome order ownClass opponentClass
            history).posts = t.posts ++ [p]
       else (Tracker.AddResult env t mode outcome order ownClass opponentClass
            history).posts = t.posts) := by
  have hg : (!env.debug && decide (mode = MODE_PRACTICE)) = false := by
    rcases hgate with h | h <;> simp [h]
  by_cases houtcome : outcome = OUTCOME_UNKNOWN
  · refine ⟨fun i hi => ?_, ?_⟩
    · interval_cases i <;>
        simp [Tracker.AddResult, Tracker.firstUnknown, Tracker.counters, hg, houtcome]
    · simp [Tracker.AddResult, Tracker.firstUnknown, hg, houtcome]
  by_cases hmode : mode = MODE_UNKNOWN
  · refine ⟨fun i hi => ?_, ?_⟩
    · interval_cases i <;>
        simp [Tracker.AddResult, Tracker.firstUnknown, Tracker.counters, hg, houtcome, hmode]
    · simp [Tracker.AddResult, Tracker.firstUnknown, hg, houtcome, hmode]
  by_cases horder : Tracker.orderAfterFallback order history = ORDER_UNKNOWN
  · refine ⟨fun i hi => ?_, ?_⟩
    · interval_cases i <;>
        simp [Tracker.AddResult, Tracker.firstUnknown, Tracker.counters, hg, houtcome, hmode,
          horder]
    · simp [Tracker.AddResult, Tracker.firstUnknown, hg, houtcome, hmode, horder]
  by_cases hown : ownClass = CLASS_UNKNOWN
  · refine ⟨fun i hi => ?_, ?_⟩
    · interval_cases i <;>
        simp [Tracker.AddResult, Tracker.firstUnknown, Tracker.counters, hg, houtcome, hmode,
          horder, hown]
    · simp [Tracker.AddResult, Tracker.firstUnknown, hg, houtcome, hmode, horder, hown]
  by_cases hopp : opponentClass = CLASS_UNKNOWN
  · refine ⟨fun i hi => ?_, ?_⟩
    · interval_cases i <;>
        simp [Tracker.AddResult, Tracker.firstUnknown, Tracker.counters, hg, houtcome, hmode,
          horder, hown, hopp]
    · simp [Tracker.AddResult, Tracker.firstUnknown, hg, houtcome, hmode, horder, hown, hopp]
  obtain ⟨s, p, hadd, _⟩ := Tracker.AddResult_accepted env t mode outcome order ownClass
    opponentClass history hgate houtcome hmode horder hown hopp
  rw [hadd]
  refine ⟨fun i hi => ?_, ?_⟩
  · interval_cases i <;>
      simp [Tracker.firstUnknown, Tracker.counters, houtcome, hmode, horder, hown, hopp]
  · simp [Tracker.firstUnknown, houtcome, hmode, horder, hown, hopp]

/-- Witness for C10: a ranked victory whose opponent class is unknown, in a release
build: the sixth counter goes from 0 to 1, the first stays 0, nothing is posted. -/
theorem C10_counter_bookkeeping_witness :
    (exampleEnv.debug = true ∨ MODE_RANKED ≠ MODE_PRACTICE) ∧
      (Tracker.counters (Tracker.AddResult exampleEnv (Tracker.create storedSettings)
          MODE_RANKED OUTCOME_VICTORY ORDER_FIRST (CLASS_KNOWN 0) CLASS_UNKNOWN [])).getD 5 0
        = 1 ∧
      (Tracker.counters (Tracker.AddResult exampleEnv (Tracker.create storedSettings)
          MODE_RANKED OUTCOME_VICTORY ORDER_FIRST (CLASS_KNOWN 0) CLASS_UNKNOWN [])).getD 0 0
        = 0 ∧
      (Tracker.AddResult exampleEnv (Tracker.create storedSettings)
          MODE_RANKED OUTCOME_VICTORY ORDER_FIRST (CLASS_KNOWN 0) CLASS_UNKNOWN []).posts
        = (Tracker.create storedSettings).posts :=
  ⟨by decide,
   (C10_counter_bookkeeping exampleEnv (Tracker.create storedSettings) MODE_RANKED
      OUTCOME_VICTORY ORDER_FIRST (CLASS_KNOWN 0) CLASS_UNKNOWN [] (by decide)).1 5 (by decide),
   (C10_counter_bookkeeping exampleEnv (Tracker.create storedSettings) MODE_RANKED
      OUTCOME_VICTORY ORDER_FIRST (CLASS_KNOWN 0) CLASS_UNKNOWN [] (by decide)).1 0 (by decide),
   (C10_counter_bookkeeping exampleEnv (Tracker.create storedSettings) MODE_RANKED
      OUTCOME_VICTORY ORDER_FIRST (CLASS_KNOWN 0) CLASS_UNKNOWN [] (by decide)).2⟩

/-! ## Helper lemmas for the tracker -/

namespace Tracker

theorem AddResult_practice_release (env : TrackerEnv) (t : Tracker) (mode : GameMode)
    (outcome : Outcome) (order : GoingOrder) (ownClass opponentClass : Class)
    (history : CardHistoryList) (hrelease : env.debug = false) (hmode : mode = MODE_PRACTICE) :
    AddResult env t mode outcome order ownClass opponentClass history = t := by
  simp [AddResult, hrelease, hmode]

theorem assign_result_meta (x y : Json) :
    JsonObject.assign (JsonObject.assign [] "result" x) "_meta" y
      = [("result", x), ("_meta", y)] := by
  simp [JsonObject.assign]

theorem AddResult_accepted_post (env : TrackerEnv) (t : Tracker) (mode : GameMode)
    (outcome : Outcome) (order : GoingOrder) (ownClass opponentClass : Class)
    (history : CardHistoryList) (hgate : env.debug = true ∨ mode ≠ MODE_PRACTICE)
    (houtcome : outcome ≠ OUTCOME_UNKNOWN) (hmode : mode ≠ MODE_UNKNOWN)
    (horder : orderAfterFallback order history ≠ ORDER_UNKNOWN)
    (hown : ownClass ≠ CLASS_UNKNOWN) (hopp : opponentClass ≠ CLASS_UNKNOWN) :
    ∃ (s : QSettings) (request : QNetworkRequest),
      AddResult env t mode outcome order ownClass opponentClass history
        = { t with
            successfulResultCount := t.successfulResultCount + 1
            settings := s
            posts := t.posts ++
              [{ request := request
                 data := PostData.serialized (Json.obj
                  [ ("result", Json.obj (resultJson env mode outcome
                      (orderAfterFallback order history) ownClass opponentClass history))
                  , ("_meta", Json.arr (metaJson env
                      { t with successfulResultCount := t.successfulResultCount + 1 })) ]) }] } := by
  have hg : (!env.debug && decide (mode = MODE_PRACTICE)) = false := by
    rcases hgate with h | h <;> simp [h]
  simp only [AddResult, hg, houtcome, hmode, horder, hown, hopp, if_false, Bool.false_eq_true]
  rw [AuthPostJson_eq, assign_result_meta]
  exact ⟨_, _, rfl⟩

theorem AddResult_dropped (env : TrackerEnv) (t : Tracker) (mode : GameMode)
    (outcome : Outcome) (order : GoingOrder) (ownClass opponentClass : Class)
    (history : CardHistoryList)
    (h : outcome = OUTCOME_UNKNOWN ∨ mode = MODE_UNKNOWN ∨
      orderAfterFallback order history = ORDER_UNKNOWN ∨ ownClass = CLASS_UNKNOWN ∨
      opponentClass = CLASS_UNKNOWN) :
    (AddResult env t mode outcome order ownClass opponentClass history).posts = t.posts := by
  simp only [AddResult]
  split_ifs <;> first | rfl | (exfalso; tauto)

theorem AddResult_posts_meta (env : TrackerEnv) (t : Tracker) (mode : GameMode)
    (outcome : Outcome) (order : GoingOrder) (ownClass opponentClass : Class)
    (history : CardHistoryList) :
    (AddResult env t mode outcome order ownClass opponentClass history).posts = t.posts ∨
      ∃ (s : QSettings) (request : QNetworkRequest),
        AddResult env t mode outcome order ownClass opponentClass history
          = { t with
              successfulResultCount := t.successfulResultCount + 1
              settings := s
              posts := t.posts ++
                [{ request := request
                   data := PostData.serialized (Json.obj
                    [ ("result", Json.obj (resultJson env mode outcome
                        (orderAfterFallback order history) ownClass opponentClass history))
                    , ("_meta", Json.arr (metaJson env
                        { t with successfulResultCount := t.successfulResultCount + 1 })) ]) }] } := by
  by_cases hpractice : env.debug = false ∧ mode = MODE_PRACTICE
  · rw [AddResult_practice_release env t mode outcome order ownClass opponentClass
      history hpractice.1 hpractice.2]
    exact Or.inl rfl
  have hgate : env.debug = true ∨ mode ≠ MODE_PRACTICE := by
    by_cases hd : env.debug = true
    · exact Or.inl hd
    · exact Or.inr fun hm => hpractice ⟨by simpa using hd, hm⟩
  by_cases hdrop : outcome = OUTCOME_UNKNOWN ∨ mode = MODE_UNKNOWN ∨
      orderAfterFallback order history = ORDER_UNKNOWN ∨ ownClass = CLASS_UNKNOWN ∨
      opponentClass = CLASS_UNKNOWN
  · exact Or.inl (AddResult_dropped env t mode outcome order ownClass opponentClass
      history hdrop)
  simp only [not_or] at hdrop
  obtain ⟨houtcome, hmode, horder, hown, hopp⟩ := hdrop
  exact Or.inr (AddResult_accepted_post env t mode outcome order ownClass opponentClass
    history hgate houtcome hmode horder hown hopp)

theorem IsAccountSetUp_eq (t : Tracker) : IsAccountSetUp t = holdsCredentials t.settings := by
  have hempty : ∀ v : String, v.isEmpty = decide (v = "") := by
    intro v
    by_cases hv : v = ""
    · subst hv; rfl
    · have := (String.isEmpty_iff v).not.mpr hv
      simp [hv, this]
  unfold IsAccountSetUp holdsCredentials
  cases hu : t.settings "username" <;> cases hp : t.settings "password" <;>
    simp [QSettings.contains, QSettings.value, hu, hp, hempty]

theorem SSLErrors_foldl (errors : List QSslError) :
    ∀ acc : List QSslError,
      errors.foldl
        (fun errorsToIgnore err =>
          if err.error = SslErrorKind.SelfSignedCertificate ∨
              err.error = SslErrorKind.SelfSignedCertificateInChain then
            errorsToIgnore ++ [err]
          else
            errorsToIgnore)
        acc
      = acc ++ errors.filter (fun err =>
          decide (err.error = SslErrorKind.SelfSignedCertificate ∨
            err.error = SslErrorKind.SelfSignedCertificateInChain)) := by
  induction errors with
  | nil => intro acc; simp
  | cons err rest ih =>
    intro acc
    by_cases h : err.error = SslErrorKind.SelfSignedCertificate ∨
        err.error = SslErrorKind.SelfSignedCertificateInChain
    · simp [List.foldl_cons, ih, List.filter_cons, h]
    · simp [List.foldl_cons, ih, List.filter_cons, h]

theorem orderAfterFallback_known (order : GoingOrder) (history : CardHistoryList)
    (h : order ≠ ORDER_UNKNOWN) : orderAfterFallback order history = order := by
  simp [orderAfterFallback, h]

theorem AddResult_counters_congr (env : TrackerEnv) (t : Tracker) (mode : GameMode)
    (outcome : Outcome) (order : GoingOrder) (ownClass opponentClass : Class)
    (h1 h2 : CardHistoryList)
    (h : orderAfterFallback order h1 = orderAfterFallback order h2) :
    counters (AddResult env t mode outcome order ownClass opponentClass h1)
      = counters (AddResult env t mode outcome order ownClass opponentClass h2) := by
  simp only [AddResult, h]
  split_ifs <;> rfl

theorem resultJson_win (env : TrackerEnv) (mode : GameMode) (outcome : Outcome)
    (order : GoingOrder) (ownClass opponentClass : Class) (history : CardHistoryList) :
    (resultJson env mode outcome order ownClass opponentClass history).value "win"
      = Json.bool (decide (outcome = OUTCOME_VICTORY)) := by
  simp [resultJson, JsonObject.assign, JsonObject.value, List.find?]

theorem resultJson_card_history (env : TrackerEnv) (mode : GameMode) (outcome : Outcome)
    (order : GoingOrder) (ownClass opponentClass : Class) (history : CardHistoryList) :
    (resultJson env mode outcome order ownClass opponentClass history).value "card_history"
      = Json.arr (history.map fun it =>
          Json.obj [ ("player", Json.str (if it.player = PLAYER_SELF then "me" else "opponent"))
                   , ("card_id", Json.str it.cardId) ]) := by
  simp [resultJson, JsonObject.assign, JsonObject.value, List.find?]

end Tracker

namespace ResultQueue

theorem obj_toObject (x : Json) (h : x.isObject = true) : Json.obj x.toObject = x := by
  cases x with
  | obj kvs => rfl
  | _ => simp [Json.isObject] at h

theorem failedAttempt_mQueue (code : Int) (q : ResultQueue)
    (hobj : ∀ x ∈ q.mQueue, x.isObject = true) :
    (failedAttempt code q).mQueue = q.mQueue.rotate 1 := by
  cases hq : q.mQueue with
  | nil => simp [failedAttempt, Upload, hq]
  | cons head rest =>
    have hhead : Json.obj head.toObject = head :=
      obj_toObject head (hobj head (by simp [hq]))
    simp [failedAttempt, Upload, UploadResultFailed, hq, hhead, List.rotate_cons_succ]

theorem iterate_failedAttempt_mQueue (code : Int) :
    ∀ (n : Nat) (q : ResultQueue), (∀ x ∈ q.mQueue, x.isObject = true) →
      ((failedAttempt code)^[n] q).mQueue = q.mQueue.rotate n := by
  intro n
  induction n with
  | zero => intro q _; simp
  | succ n ih =>
    intro q hobj
    rw [Function.iterate_succ_apply', failedAttempt_mQueue, ih q hobj, List.rotate_rotate]
    intro x hx
    rw [ih q hobj, List.mem_rotate] at hx
    exact hobj x hx

end ResultQueue

/-! ## The tracker: filtered modes, meta array, account set-up, TLS errors -/

/-- C11 as stated fails: in a release build a complete solo-adventure record is
booked as successful and posted, and a tavern-brawl record with unknown outcome is
booked under the unknown-outcome counter; `Tracker::AddResult` filters neither mode. -/
theorem C11_solo_and_brawl_are_booked :
    exampleEnv.debug = false ∧
      (Tracker.create credentialSettings).successfulResultCount = 0 ∧
      (Tracker.AddResult exampleEnv (Tracker.create credentialSettings) MODE_SOLO_ADVENTURES
        OUTCOME_VICTORY ORDER_FIRST (CLASS_KNOWN 0) (CLASS_KNOWN 1) []).successfulResultCount
        = 1 ∧
      (Tracker.AddResult exampleEnv (Tracker.create credentialSettings) MODE_SOLO_ADVENTURES
        OUTCOME_VICTORY ORDER_FIRST (CLASS_KNOWN 0) (CLASS_KNOWN 1) []).posts.length = 1 ∧
      (Tracker.AddResult exampleEnv (Tracker.create credentialSettings) MODE_TAVERN_BRAWL
        OUTCOME_UNKNOWN ORDER_FIRST (CLASS_KNOWN 0) (CLASS_KNOWN 1) []).unknownOutcomeCount
        = 1 := by
  decide

/-- C11 (amended). In a release build every call of `Tracker::AddResult` whose mode
is practice returns the state it was given, whatever the other fields are: nothing
is posted and none of the six counters changes. -/
theorem C11_release_practice_touches_nothing (env : TrackerEnv) (t : Tracker)
    (mode : GameMode) (outcome : Outcome) (order : GoingOrder) (ownClass opponentClass : Class)
    (history : CardHistoryList) (hrelease : env.debug = false) (hmode : mode = MODE_PRACTICE) :
    Tracker.AddResult env t mode outcome order ownClass opponentClass history = t ∧
      (Tracker.AddResult env t mode outcome order ownClass opponentClass history).posts
        = t.posts ∧
      Tracker.counters (Tracker.AddResult env t mode outcome order ownClass opponentClass
        history) = Tracker.counters t := by
  rw [Tracker.AddResult_practice_release env t mode outcome order ownClass opponentClass
    history hrelease hmode]
  exact ⟨rfl, rfl, rfl⟩

/-- Witness for C11 (amended): a complete practice record in a release build. -/
theorem C11_release_practice_touches_nothing_witness :
    exampleEnv.debug = false ∧
      Tracker.counters (Tracker.AddResult exampleEnv (Tracker.create credentialSettings)
        MODE_PRACTICE OUTCOME_VICTORY ORDER_FIRST (CLASS_KNOWN 0) (CLASS_KNOWN 1) [])
        = Tracker.counters (Tracker.create credentialSettings) :=
  ⟨rfl,
   (C11_release_practice_touches_nothing exampleEnv (Tracker.create credentialSettings)
      MODE_PRACTICE OUTCOME_VICTORY ORDER_FIRST (CLASS_KNOWN 0) (CLASS_KNOWN 1) [] rfl rfl).2.2⟩

/-- C12 (meta shape). Whatever the arguments, a call of `Tracker::AddResult` either
posts nothing or posts one request whose `_meta` value is the array of exactly these
ten elements, in this order: the six counters as they stand after the call, the
window width and height, `VERSION`, `PLATFORM`; the successful counter among them
already counts this record. For a tracker that was just constructed the array of
the first upload therefore begins 1, 0, 0, 0, 0, 0. -/
theorem C12_meta_shape (env : TrackerEnv) (t : Tracker) (mode : GameMode) (outcome : Outcome)
    (order : GoingOrder) (ownClass opponentClass : Class) (history : CardHistoryList) :
    ((Tracker.AddResult env t mode outcome order ownClass opponentClass history).posts = t.posts ∨
      ∃ p, (Tracker.AddResult env t mode outcome order ownClass opponentClass history).posts
          = t.posts ++ [p] ∧
        Tracker.postedMeta p = Json.arr
          [ Json.num (Tracker.AddResult env t mode outcome order ownClass opponentClass
              history).successfulResultCount
          , Json.num (Tracker.AddResult env t mode outcome order ownClass opponentClass
              history).unknownOutcomeCount
          , Json.num (Tracker.AddResult env t mode outcome order ownClass opponentClass
              history).unknownModeCount
          , Json.num (Tracker.AddResult env t mode outcome order ownClass opponentClass
              history).unknownOrderCount
          , Json.num (Tracker.AddResult env t mode outcome order ownClass opponentClass
              history).unknownClassCount
          , Json.num (Tracker.AddResult env t mode outcome order ownClass opponentClass
              history).unknownOpponentCount
          , Json.num env.GetWidth
          , Json.num env.GetHeight
          , Json.str env.VERSION
          , Json.str env.PLATFORM ] ∧
        (Tracker.AddResult env t mode outcome order ownClass opponentClass
          history).successfulResultCount = t.successfulResultCount + 1) ∧
      (∀ settings : QSettings,
        (Tracker.AddResult env (Tracker.create settings) mode outcome order ownClass
          opponentClass history).posts = [] ∨
        ∃ p, (Tracker.AddResult env (Tracker.create settings) mode outcome order ownClass
            opponentClass history).posts = [p] ∧
          Tracker.postedMeta p = Json.arr
            [ Json.num 1, Json.num 0, Json.num 0, Json.num 0, Json.num 0, Json.num 0
            , Json.num env.GetWidth, Json.num env.GetHeight
            , Json.str env.VERSION, Json.str env.PLATFORM ]) := by
  refine ⟨?_, fun settings => ?_⟩
  · rcases Tracker.AddResult_posts_meta env t mode outcome order ownClass opponentClass
      history with h | ⟨s, request, h⟩
    · exact Or.inl h
    · rw [h]
      exact Or.inr ⟨_, rfl, by
        simp [Tracker.postedMeta, Tracker.postedParams, Json.toObject, JsonObject.value,
          List.find?, Tracker.metaJson], rfl⟩
  · rcases Tracker.AddResult_posts_meta env (Tracker.create settings) mode outcome order
      ownClass opponentClass history with h | ⟨s, request, h⟩
    · exact Or.inl h
    · rw [h]
      exact Or.inr ⟨_, rfl, by
        simp [Tracker.postedMeta, Tracker.postedParams, Json.toObject, JsonObject.value,
          List.find?, Tracker.metaJson, Tracker.create]⟩

/-- Witness for C12: the first record of a fresh tracker, a complete ranked victory;
one request is posted and its `_meta` array begins 1, 0, 0, 0, 0, 0. -/
theorem C12_meta_shape_witness :
    ∃ p, (Tracker.AddResult exampleEnv (Tracker.create credentialSettings) MODE_RANKED
        OUTCOME_VICTORY ORDER_FIRST (CLASS_KNOWN 0) (CLASS_KNOWN 1) []).posts = [p] ∧
      Tracker.postedMeta p = Json.arr
        [ Json.num 1, Json.num 0, Json.num 0, Json.num 0, Json.num 0, Json.num 0
        , Json.num 1024, Json.num 768, Json.str "0.4.1", Json.str "mac" ] :=
  ((C12_meta_shape exampleEnv (Tracker.create credentialSettings) MODE_RANKED OUTCOME_VICTORY
    ORDER_FIRST (CLASS_KNOWN 0) (CLASS_KNOWN 1) []).2 credentialSettings).resolve_left
    (fun h => absurd (congrArg List.length h) (by decide))

/-- C13 (account bootstrap decision). When the settings hold both a non-empty
username and a non-empty password, `EnsureAccountIsSetUp` returns the state it was
given: no request, no setting changed. In every other case it posts exactly one
request, the account creation: path `/users.json` on the service URL, no
authorization header, empty body. -/
theorem C13_account_bootstrap_decision (env : TrackerEnv) (t : Tracker) :
    if Tracker.holdsCredentials t.settings = true then
      Tracker.EnsureAccountIsSetUp env t = t
    else
      ∃ p, (Tracker.EnsureAccountIsSetUp env t).posts = t.posts ++ [p] ∧
        p.request.url = (Tracker.WebserviceURL t).1 ++ "/users.json" ∧
        p.request.authorization = none ∧
        p.data = PostData.empty := by
  have hset := Tracker.IsAccountSetUp_eq t
  split_ifs with h
  · simp [Tracker.EnsureAccountIsSetUp, hset, h]
  · have hfalse : Tracker.holdsCredentials t.settings = false := by simpa using h
    simp only [Tracker.EnsureAccountIsSetUp, hset, hfalse, Bool.not_false, if_true,
      Tracker.CreateAndStoreAccount, Tracker.CreateTrackerRequest, Tracker.WebserviceURLAt]
    have hposts : (Tracker.WebserviceURL t).2.posts = t.posts := by
      simp only [Tracker.WebserviceURL, Tracker.SetWebserviceURL]
      split_ifs <;> rfl
    rw [hposts]
    exact ⟨_, rfl, rfl, rfl, rfl⟩

/-- C14 (TLS tolerance). The list `Tracker::SSLErrors` hands to `ignoreSslErrors` is
the reported list filtered by kind: it keeps, in their original order, exactly the
errors whose kind is self-signed certificate or self-signed certificate in chain.
No error of another kind is in it, and every error of those two kinds is. -/
theorem C14_ssl_errors_ignored (errors : List QSslError) :
    Tracker.SSLErrors errors
        = errors.filter (fun err =>
            decide (err.error = SslErrorKind.SelfSignedCertificate ∨
              err.error = SslErrorKind.SelfSignedCertificateInChain)) ∧
      List.Sublist (Tracker.SSLErrors errors) errors ∧
      (∀ err, err ∈ Tracker.SSLErrors errors ↔
        err ∈ errors ∧ (err.error = SslErrorKind.SelfSignedCertificate ∨
          err.error = SslErrorKind.SelfSignedCertificateInChain)) := by
  have hfilter : Tracker.SSLErrors errors
      = errors.filter (fun err =>
          decide (err.error = SslErrorKind.SelfSignedCertificate ∨
            err.error = SslErrorKind.SelfSignedCertificateInChain)) := by
    unfold Tracker.SSLErrors
    rw [Tracker.SSLErrors_foldl]
    rfl
  refine ⟨hfilter, ?_, ?_⟩
  · rw [hfilter]
    exact List.filter_sublist _
  · intro err
    rw [hfilter, List.mem_filter]
    simp

/-! ## The result queue: removal, check gating, failed attempts -/

/-- C15 as stated fails: `Upload()` and `Check()` take the only element out of the
queue when they hand it to the web client, before any acknowledgement, while
`UploadResultSucceeded`, the acknowledgement, removes nothing. -/
theorem C15_upload_removes_before_acknowledgement :
    waitingQueue.mQueue.length = 1 ∧
      (ResultQueue.Upload waitingQueue).mQueue.length = 0 ∧
      (ResultQueue.Check waitingQueue).mQueue.length = 0 ∧
      (ResultQueue.Upload waitingQueue).uploads.length = 1 ∧
      (ResultQueue.UploadResultSucceeded waitingQueue exampleResponse).mQueue.length = 1 := by
  decide

/-- C15 (amended). An element leaves the queue only through `Upload()`, at the
moment it is handed to the web client: in every step (`Add`, `Upload`, `Check`,
either signal) the queue extended by what the step appended equals what the step
removed followed by the queue afterwards, at most one element is removed, and
every removed element is passed to `UploadResult` in that same step. The two
signal handlers remove nothing: `UploadResultSucceeded` leaves the queue as it is
and `UploadResultFailed` only appends. -/
theorem C15_elements_leave_only_when_uploaded (AsJson : Result → JsonObject) (q : ResultQueue) :
    (∀ op : ResultQueue.Operation, ∃ added removed : List Json,
      q.mQueue ++ added = removed ++ (ResultQueue.perform AsJson q op).mQueue ∧
      (ResultQueue.perform AsJson q op).uploads = q.uploads ++ removed.map Json.toObject ∧
      removed.length ≤ 1) ∧
      (∀ response, (ResultQueue.UploadResultSucceeded q response).mQueue = q.mQueue) ∧
      (∀ r code, (ResultQueue.UploadResultFailed q r code).mQueue
        = q.mQueue ++ [Json.obj r]) := by
  have hup : ∀ (q0 : ResultQueue) (added : List Json), ∃ removed : List Json,
      q0.mQueue ++ added = removed ++ (ResultQueue.Upload { q0 with mQueue := q0.mQueue ++ added }).mQueue ∧
      (ResultQueue.Upload { q0 with mQueue := q0.mQueue ++ added }).uploads
        = q0.uploads ++ removed.map Json.toObject ∧
      removed.length ≤ 1 := by
    intro q0 added
    cases hq : q0.mQueue ++ added with
    | nil => exact ⟨[], by simp [ResultQueue.Upload, hq]⟩
    | cons a as => exact ⟨[a], by simp [ResultQueue.Upload, hq]⟩
  have hup0 : ∃ removed : List Json,
      q.mQueue ++ [] = removed ++ (ResultQueue.Upload q).mQueue ∧
      (ResultQueue.Upload q).uploads = q.uploads ++ removed.map Json.toObject ∧
      removed.length ≤ 1 := by
    have := hup q []
    simpa using this
  have hsucc : ∀ response,
      (ResultQueue.UploadResultSucceeded q response).mQueue = q.mQueue ∧
      (ResultQueue.UploadResultSucceeded q response).uploads = q.uploads := by
    intro response
    simp only [ResultQueue.UploadResultSucceeded]
    split_ifs <;> exact ⟨rfl, rfl⟩
  refine ⟨fun op => ?_, fun response => (hsucc response).1, fun r code => rfl⟩
  cases op with
  | Add res =>
    by_cases hskip : ResultQueue.skipped res = true
    · exact ⟨[], [], by simp [ResultQueue.perform, ResultQueue.Add_of_skipped AsJson q res hskip]⟩
    · simp only [ResultQueue.skipped, Bool.or_eq_true, decide_eq_true_eq, not_or] at hskip
      obtain ⟨⟨⟨⟨⟨⟨h1, h2⟩, h3⟩, h4⟩, h5⟩, h6⟩, h7⟩ := hskip
      obtain ⟨removed, hrem⟩ := hup q [Json.obj (AsJson res)]
      exact ⟨[Json.obj (AsJson res)], removed, by
        simpa [ResultQueue.perform, ResultQueue.Add_of_accepted AsJson q res h1 h2 h3 h4 h5 h6 h7]
          using hrem⟩
  | Upload =>
    obtain ⟨removed, hrem⟩ := hup0
    exact ⟨[], removed, hrem⟩
  | Check =>
    by_cases hact : q.mUploadTimer.isActive = true
    · exact ⟨[], [], by simp [ResultQueue.perform, ResultQueue.Check, hact]⟩
    · obtain ⟨removed, hrem⟩ := hup0
      exact ⟨[], removed, by simpa [ResultQueue.perform, ResultQueue.Check, hact] using hrem⟩
  | UploadResultSucceeded response =>
    exact ⟨[], [], by simp [ResultQueue.perform, hsucc response]⟩
  | UploadResultFailed r code =>
    exact ⟨[Json.obj r], [], by simp [ResultQueue.perform, ResultQueue.UploadResultFailed]⟩

/-- C17 (check gating). While the upload timer is active `Check()` returns the state
it was given. While it is inactive `Check()` is `Upload()`: from a queue `h :: t` it
hands exactly `h` to the web client and leaves `t`, and from an empty queue it sends
nothing and leaves the queue empty. In both cases the two timers are as before. -/
theorem C17_check_gating (q : ResultQueue) :
    (q.mUploadTimer.isActive = true → ResultQueue.Check q = q) ∧
      (q.mUploadTimer.isActive = false →
        ResultQueue.Check q = ResultQueue.Upload q ∧
        (∀ h t, q.mQueue = h :: t →
          (ResultQueue.Check q).mQueue = t ∧
          (ResultQueue.Check q).uploads = q.uploads ++ [h.toObject]) ∧
        (q.mQueue = [] →
          (ResultQueue.Check q).mQueue = [] ∧ (ResultQueue.Check q).uploads = q.uploads)) ∧
      (ResultQueue.Check q).mCheckTimer = q.mCheckTimer ∧
      (ResultQueue.Check q).mUploadTimer = q.mUploadTimer := by
  have hup : (ResultQueue.Upload q).mCheckTimer = q.mCheckTimer ∧
      (ResultQueue.Upload q).mUploadTimer = q.mUploadTimer := by
    unfold ResultQueue.Upload
    split <;> exact ⟨rfl, rfl⟩
  refine ⟨fun hact => by simp [ResultQueue.Check, hact], fun hact => ?_, ?_⟩
  · have hcheck : ResultQueue.Check q = ResultQueue.Upload q := by
      simp [ResultQueue.Check, hact]
    rw [hcheck]
    refine ⟨rfl, fun h t hq => ?_, fun hq => ?_⟩
    · simp [ResultQueue.Upload, hq]
    · simp [ResultQueue.Upload, hq]
  · by_cases hact : q.mUploadTimer.isActive = true
    · simp [ResultQueue.Check, hact]
    · simpa [ResultQueue.Check, hact] using hup

/-- Witness for C17: with the upload timer running `Check()` leaves the two queued
results alone; with the timer stopped it uploads the first and keeps the second. -/
theorem C17_check_gating_witness :
    drainingQueue.mUploadTimer.isActive = true ∧
      ResultQueue.Check drainingQueue = drainingQueue ∧
      savedQueue.mUploadTimer.isActive = false ∧
      (ResultQueue.Check savedQueue).mQueue = [Json.obj (exampleAsJson secondResult)] ∧
      (ResultQueue.Check savedQueue).uploads
        = savedQueue.uploads ++ [(Json.obj (exampleAsJson exampleResult)).toObject] :=
  ⟨rfl, (C17_check_gating drainingQueue).1 rfl, rfl,
   (((C17_check_gating savedQueue).2.1 rfl).2.1 _ _ rfl).1,
   (((C17_check_gating savedQueue).2.1 rfl).2.1 _ _ rfl).2⟩

/-- C20 (a failed attempt neither loses nor duplicates a record). For a queue
`h :: t` of JSON objects, `Upload()` followed by `UploadResultFailed( h, code )`
yields `t ++ [h]`: same length, a permutation of the queue, its left rotation by
one; and running this attempt-and-fail cycle as many times as the queue is long
brings the queue back in its original order. -/
theorem C20_failed_attempt_rotates (q : ResultQueue) (code : Int) (h : Json) (t : List Json)
    (hq : q.mQueue = h :: t) (hobj : ∀ x ∈ q.mQueue, x.isObject = true) :
    (ResultQueue.UploadResultFailed (ResultQueue.Upload q) h.toObject code).mQueue = t ++ [h] ∧
      (ResultQueue.failedAttempt code q).mQueue = t ++ [h] ∧
      (t ++ [h]).length = q.mQueue.length ∧
      List.Perm (t ++ [h]) q.mQueue ∧
      t ++ [h] = q.mQueue.rotate 1 ∧
      ((ResultQueue.failedAttempt code)^[q.mQueue.length] q).mQueue = q.mQueue := by
  have hhead : Json.obj h.toObject = h :=
    ResultQueue.obj_toObject h (hobj h (by simp [hq]))
  have hrot : t ++ [h] = q.mQueue.rotate 1 := by
    simp [hq, List.rotate_cons_succ]
  refine ⟨?_, ?_, ?_, ?_, hrot, ?_⟩
  · simp [ResultQueue.Upload, ResultQueue.UploadResultFailed, hq, hhead]
  · rw [ResultQueue.failedAttempt_mQueue code q hobj, hrot]
  · simp [hq]
  · rw [hrot]
    exact List.rotate_perm _ _
  · rw [ResultQueue.iterate_failedAttempt_mQueue code _ q hobj, List.rotate_length]

/-- Witness for C20: the queue of the two example results; one failed attempt moves
the first result behind the second, two failed attempts restore the queue. -/
theorem C20_failed_attempt_rotates_witness :
    savedQueue.mQueue
        = [Json.obj (exampleAsJson exampleResult), Json.obj (exampleAsJson secondResult)] ∧
      (ResultQueue.failedAttempt 500 savedQueue).mQueue
        = [Json.obj (exampleAsJson secondResult), Json.obj (exampleAsJson exampleResult)] ∧
      ((ResultQueue.failedAttempt 500)^[2] savedQueue).mQueue = savedQueue.mQueue :=
  ⟨rfl,
   (C20_failed_attempt_rotates savedQueue 500 (Json.obj (exampleAsJson exampleResult))
      [Json.obj (exampleAsJson secondResult)] rfl
      (by intro x hx; simp [savedQueue] at hx; rcases hx with hx | hx <;> subst hx <;> rfl)).2.1,
   (C20_failed_attempt_rotates savedQueue 500 (Json.obj (exampleAsJson exampleResult))
      [Json.obj (exampleAsJson secondResult)] rfl
      (by intro x hx; simp [savedQueue] at hx; rcases hx with hx | hx <;> subst hx <;> rfl)).2.2.2.2.2⟩

/-! ## The tracker: service URL, serialization, known order -/

/-- C16 (service URL defaulting). When `webserviceUrl` is stored and not empty,
`WebserviceURL()` returns it and leaves the state as it is. When the key is absent
or holds the empty string, it stores `https://trackobot.com` under `webserviceUrl`,
leaves every other key alone, and returns that value. So the result is never empty,
a second call returns the same value and changes nothing, and `WebserviceURL( path )`
is `WebserviceURL()` followed by `path`. -/
theorem C16_webservice_url_default (t : Tracker) :
    (∀ v, t.settings "webserviceUrl" = some v → v ≠ "" → Tracker.WebserviceURL t = (v, t)) ∧
      ((t.settings "webserviceUrl" = none ∨ t.settings "webserviceUrl" = some "") →
        (Tracker.WebserviceURL t).1 = "https://trackobot.com" ∧
        (Tracker.WebserviceURL t).2.settings "webserviceUrl" = some "https://trackobot.com" ∧
        (∀ k, k ≠ "webserviceUrl" → (Tracker.WebserviceURL t).2.settings k = t.settings k) ∧
        (Tracker.WebserviceURL t).2.posts = t.posts) ∧
      (Tracker.WebserviceURL t).1 ≠ "" ∧
      Tracker.WebserviceURL (Tracker.WebserviceURL t).2
        = ((Tracker.WebserviceURL t).1, (Tracker.WebserviceURL t).2) ∧
      (∀ path, Tracker.WebserviceURLAt t path
        = ((Tracker.WebserviceURL t).1 ++ path, (Tracker.WebserviceURL t).2)) := by
  have hempty : ∀ v : String, v.isEmpty = decide (v = "") := by
    intro v
    by_cases hv : v = ""
    · subst hv; rfl
    · have := (String.isEmpty_iff v).not.mpr hv
      simp [hv, this]
  have hstored : ∀ (t0 : Tracker) (v : String), t0.settings "webserviceUrl" = some v → v ≠ "" →
      Tracker.WebserviceURL t0 = (v, t0) := by
    intro t0 v hv hne
    simp [Tracker.WebserviceURL, QSettings.contains, QSettings.value, hv, hempty, hne]
  have hdefault : (t.settings "webserviceUrl" = none ∨ t.settings "webserviceUrl" = some "") →
      Tracker.WebserviceURL t
        = ("https://trackobot.com", Tracker.SetWebserviceURL t "https://trackobot.com") := by
    intro h
    rcases h with h | h <;>
      simp [Tracker.WebserviceURL, Tracker.SetWebserviceURL, QSettings.contains,
        QSettings.value, QSettings.setValue, h, hempty, DEFAULT_WEBSERVICE_URL]
  have hcases : (∃ v, t.settings "webserviceUrl" = some v ∧ v ≠ "") ∨
      (t.settings "webserviceUrl" = none ∨ t.settings "webserviceUrl" = some "") := by
    cases hs : t.settings "webserviceUrl" with
    | none => exact Or.inr (Or.inl rfl)
    | some v =>
      by_cases hv : v = ""
      · exact Or.inr (Or.inr (by rw [hv]))
      · exact Or.inl ⟨v, rfl, hv⟩
  have hkey : (Tracker.SetWebserviceURL t "https://trackobot.com").settings "webserviceUrl"
      = some "https://trackobot.com" := by
    simp [Tracker.SetWebserviceURL, QSettings.setValue]
  have hurl : ("https://trackobot.com" : String) ≠ "" := by decide
  refine ⟨hstored t, fun h => ?_, ?_, ?_, fun path => rfl⟩
  · rw [hdefault h]
    refine ⟨rfl, hkey, fun k hk => ?_, rfl⟩
    simp [Tracker.SetWebserviceURL, QSettings.setValue, hk]
  · rcases hcases with ⟨v, hv, hne⟩ | h
    · rw [hstored t v hv hne]; exact hne
    · rw [hdefault h]; exact hurl
  · rcases hcases with ⟨v, hv, hne⟩ | h
    · rw [hstored t v hv hne]
      exact hstored t v hv hne
    · rw [hdefault h]
      exact hstored _ "https://trackobot.com" hkey hurl

/-- Witness for C16: a stored URL is returned as it is; with no stored URL the
default is returned and stored. -/
theorem C16_webservice_url_default_witness :
    Tracker.WebserviceURL (Tracker.create urlSettings)
        = ("http://localhost:3000", Tracker.create urlSettings) ∧
      (Tracker.WebserviceURL (Tracker.create credentialSettings)).1 = "https://trackobot.com" ∧
      (Tracker.WebserviceURL (Tracker.create credentialSettings)).2.settings "webserviceUrl"
        = some "https://trackobot.com" :=
  ⟨(C16_webservice_url_default (Tracker.create urlSettings)).1 "http://localhost:3000" rfl
      (by decide),
   ((C16_webservice_url_default (Tracker.create credentialSettings)).2.1 (Or.inl rfl)).1,
   ((C16_webservice_url_default (Tracker.create credentialSettings)).2.1 (Or.inl rfl)).2.1⟩

/-- C18 (serialization mapping). For an accepted record (it passes the practice gate
and no field is unknown after the order fallback) one request is posted, and in its
`result` object `coin` is true exactly when the order after the fallback is second,
`win` is true exactly when the outcome is victory, and `card_history` is an array as
long as the input history whose entry at each position has the `card_id` of the
input entry at that position and the `player` "me" when that entry was played by
the player, "opponent" otherwise. -/
theorem C18_serialization_mapping (env : TrackerEnv) (t : Tracker) (mode : GameMode)
    (outcome : Outcome) (order : GoingOrder) (ownClass opponentClass : Class)
    (history : CardHistoryList) (hgate : env.debug = true ∨ mode ≠ MODE_PRACTICE)
    (houtcome : outcome ≠ OUTCOME_UNKNOWN) (hmode : mode ≠ MODE_UNKNOWN)
    (horder : Tracker.orderAfterFallback order history ≠ ORDER_UNKNOWN)
    (hown : ownClass ≠ CLASS_UNKNOWN) (hopp : opponentClass ≠ CLASS_UNKNOWN) :
    ∃ (p : Post) (items : List Json),
      (Tracker.AddResult env t mode outcome order ownClass opponentClass history).posts
        = t.posts ++ [p] ∧
      (Tracker.postedResult p).value "coin"
        = Json.bool (decide (Tracker.orderAfterFallback order history = ORDER_SECOND)) ∧
      (Tracker.postedResult p).value "win" = Json.bool (decide (outcome = OUTCOME_VICTORY)) ∧
      (Tracker.postedResult p).value "card_history" = Json.arr items ∧
      items.length = history.length ∧
      (∀ (i : Nat) (it : CardHistoryItem), history[i]? = some it →
        ∃ item, items[i]? = some item ∧
          item.toObject.value "card_id" = Json.str it.cardId ∧
          item.toObject.value "player"
            = Json.str (if it.player = PLAYER_SELF then "me" else "opponent")) := by
  obtain ⟨s, request, hadd⟩ := Tracker.AddResult_accepted_post env t mode outcome order
    ownClass opponentClass history hgate houtcome hmode horder hown hopp
  rw [hadd]
  refine ⟨_, history.map fun it =>
      Json.obj [ ("player", Json.str (if it.player = PLAYER_SELF then "me" else "opponent"))
               , ("card_id", Json.str it.cardId) ], rfl, ?_, ?_, ?_, ?_, ?_⟩
  · simp [Tracker.postedResult, Tracker.postedParams, Json.toObject, JsonObject.value,
      List.find?, Tracker.resultJson_coin]
  · simp [Tracker.postedResult, Tracker.postedParams, Json.toObject, JsonObject.value,
      List.find?, Tracker.resultJson_win]
  · simp only [Tracker.postedResult, Tracker.postedParams, Json.toObject, JsonObject.value,
      List.find?]
    exact Tracker.resultJson_card_history env mode outcome
      (Tracker.orderAfterFallback order history) ownClass opponentClass history
  · simp
  · intro i it hi
    refine ⟨_, by rw [List.getElem?_map, hi]; rfl, ?_, ?_⟩
    · simp [Json.toObject, JsonObject.value, List.find?]
    · simp [Json.toObject, JsonObject.value, List.find?]

/-- Witness for C18: a ranked victory with unknown order and the coin first played
by the player; the posted `coin` and `win` are both true. -/
theorem C18_serialization_mapping_witness :
    ∃ (p : Post) (items : List Json),
      (Tracker.AddResult exampleEnv (Tracker.create credentialSettings) MODE_RANKED
        OUTCOME_VICTORY ORDER_UNKNOWN (CLASS_KNOWN 0) (CLASS_KNOWN 1) coinHistory).posts
        = (Tracker.create credentialSettings).posts ++ [p] ∧
      (Tracker.postedResult p).value "coin" = Json.bool true ∧
      (Tracker.postedResult p).value "win" = Json.bool true ∧
      (Tracker.postedResult p).value "card_history" = Json.arr items ∧
      items.length = 3 ∧
      (∀ (i : Nat) (it : CardHistoryItem), coinHistory[i]? = some it →
        ∃ item, items[i]? = some item ∧
          item.toObject.value "card_id" = Json.str it.cardId ∧
          item.toObject.value "player"
            = Json.str (if it.player = PLAYER_SELF then "me" else "opponent")) :=
  C18_serialization_mapping exampleEnv (Tracker.create credentialSettings) MODE_RANKED
    OUTCOME_VICTORY ORDER_UNKNOWN (CLASS_KNOWN 0) (CLASS_KNOWN 1) coinHistory
    (by decide) (by decide) (by decide) (by decide) (by decide) (by decide)

/-- C19 (a known order is not overridden). When the given order is first or second,
two calls that differ only in their card history leave the six counters equal, and
either both post nothing or both post one request whose `coin` field is true exactly
when the given order is second, whatever the histories say about the coin. -/
theorem C19_known_order_not_overridden (env : TrackerEnv) (t : Tracker) (mode : GameMode)
    (outcome : Outcome) (order : GoingOrder) (ownClass opponentClass : Class)
    (h1 h2 : CardHistoryList) (hknown : order = ORDER_FIRST ∨ order = ORDER_SECOND) :
    Tracker.counters (Tracker.AddResult env t mode outcome order ownClass opponentClass h1)
        = Tracker.counters (Tracker.AddResult env t mode outcome order ownClass opponentClass h2) ∧
      (((Tracker.AddResult env t mode outcome order ownClass opponentClass h1).posts = t.posts ∧
          (Tracker.AddResult env t mode outcome order ownClass opponentClass h2).posts = t.posts) ∨
        ∃ p1 p2,
          (Tracker.AddResult env t mode outcome order ownClass opponentClass h1).posts
            = t.posts ++ [p1] ∧
          (Tracker.AddResult env t mode outcome order ownClass opponentClass h2).posts
            = t.posts ++ [p2] ∧
          Tracker.postedCoin p1 = Json.bool (decide (order = ORDER_SECOND)) ∧
          Tracker.postedCoin p2 = Json.bool (decide (order = ORDER_SECOND))) := by
  have hne : order ≠ ORDER_UNKNOWN := by
    rcases hknown with h | h <;> rw [h] <;> decide
  have ho1 := Tracker.orderAfterFallback_known order h1 hne
  have ho2 := Tracker.orderAfterFallback_known order h2 hne
  refine ⟨Tracker.AddResult_counters_congr env t mode outcome order ownClass opponentClass
    h1 h2 (by rw [ho1, ho2]), ?_⟩
  by_cases hpractice : env.debug = false ∧ mode = MODE_PRACTICE
  · rw [Tracker.AddResult_practice_release env t mode outcome order ownClass opponentClass
        h1 hpractice.1 hpractice.2,
      Tracker.AddResult_practice_release env t mode outcome order ownClass opponentClass
        h2 hpractice.1 hpractice.2]
    exact Or.inl ⟨rfl, rfl⟩
  have hgate : env.debug = true ∨ mode ≠ MODE_PRACTICE := by
    by_cases hd : env.debug = true
    · exact Or.inl hd
    · exact Or.inr fun hm => hpractice ⟨by simpa using hd, hm⟩
  by_cases hdrop : outcome = OUTCOME_UNKNOWN ∨ mode = MODE_UNKNOWN ∨
      ownClass = CLASS_UNKNOWN ∨ opponentClass = CLASS_UNKNOWN
  · refine Or.inl ⟨?_, ?_⟩
    · exact Tracker.AddResult_dropped env t mode outcome order ownClass opponentClass h1
        (by tauto)
    · exact Tracker.AddResult_dropped env t mode outcome order ownClass opponentClass h2
        (by tauto)
  simp only [not_or] at hdrop
  obtain ⟨houtcome, hmode, hown, hopp⟩ := hdrop
  obtain ⟨s1, p1, hadd1, hcoin1⟩ := Tracker.AddResult_accepted env t mode outcome order
    ownClass opponentClass h1 hgate houtcome hmode (by rw [ho1]; exact hne) hown hopp
  obtain ⟨s2, p2, hadd2, hcoin2⟩ := Tracker.AddResult_accepted env t mode outcome order
    ownClass opponentClass h2 hgate houtcome hmode (by rw [ho2]; exact hne) hown hopp
  rw [ho1] at hcoin1
  rw [ho2] at hcoin2
  exact Or.inr ⟨p1, p2, by rw [hadd1], by rw [hadd2], hcoin1, hcoin2⟩

/-- Witness for C19: a ranked victory given as going first, once with a history in
which the player plays the coin and once with an empty history; the counters agree
and both posted `coin` fields are false. -/
theorem C19_known_order_not_overridden_witness :
    (ORDER_FIRST = ORDER_FIRST ∨ ORDER_FIRST = ORDER_SECOND) ∧
      Tracker.counters (Tracker.AddResult exampleEnv (Tracker.create credentialSettings)
          MODE_RANKED OUTCOME_VICTORY ORDER_FIRST (CLASS_KNOWN 0) (CLASS_KNOWN 1)
          selfCoinHistory)
        = Tracker.counters (Tracker.AddResult exampleEnv (Tracker.create credentialSettings)
          MODE_RANKED OUTCOME_VICTORY ORDER_FIRST (CLASS_KNOWN 0) (CLASS_KNOWN 1) []) ∧
      ∃ p1 p2,
        (Tracker.AddResult exampleEnv (Tracker.create credentialSettings) MODE_RANKED
          OUTCOME_VICTORY ORDER_FIRST (CLASS_KNOWN 0) (CLASS_KNOWN 1) selfCoinHistory).posts
          = (Tracker.create credentialSettings).posts ++ [p1] ∧
        (Tracker.AddResult exampleEnv (Tracker.create credentialSettings) MODE_RANKED
          OUTCOME_VICTORY ORDER_FIRST (CLASS_KNOWN 0) (CLASS_KNOWN 1) []).posts
          = (Tracker.create credentialSettings).posts ++ [p2] ∧
        Tracker.postedCoin p1 = Json.bool false ∧
        Tracker.postedCoin p2 = Json.bool false :=
  ⟨Or.inl rfl,
   (C19_known_order_not_overridden exampleEnv (Tracker.create credentialSettings) MODE_RANKED
      OUTCOME_VICTORY ORDER_FIRST (CLASS_KNOWN 0) (CLASS_KNOWN 1) selfCoinHistory []
      (Or.inl rfl)).1,
   (C19_known_order_not_overridden exampleEnv (Tracker.create credentialSettings) MODE_RANKED
      OUTCOME_VICTORY ORDER_FIRST (CLASS_KNOWN 0) (CLASS_KNOWN 1) selfCoinHistory []
      (Or.inl rfl)).2.resolve_left
      (fun h => absurd (congrArg List.length h.1) (by decide))⟩

end TrackOBot
